import Mathlib

/-!
Verification development for the math step-explainer core: the shared
`Solution` data model, the calculation solver and the algebraic solver.
The two solver classes are translated from the TypeScript source
(CalculationSolver, AlgebraicSolver, SolverFactory).  The mathjs library
the source calls into (`parse`, `evaluate`, `simplify`, `compile`,
`format`) is not part of the repository; those capabilities are modelled
from the specification's description of the supported grammar (infix
`+ - * / ^`, function calls, parentheses, constants `e`, `pi`, `i`) and
of the expression-tree node kinds (operator, function-call, symbol,
literal).  Numeric values are modelled as exact rationals extended with
the JavaScript non-finite values `Infinity`, `-Infinity`, `NaN` and an
opaque non-number marker standing for mathjs `Complex` results; every
arithmetic operation exercised by the claims is exact at this precision.
-/

deriving instance DecidableEq for Except

set_option maxRecDepth 16384

namespace MathSteps

/-- A kernel-computable exact rational: numerator, positive denominator.  All
values built by the arithmetic below are in lowest terms, so structural
equality coincides with numeric equality on every value the embedded code
produces.  This is the exact-precision abstraction of a JavaScript float; all
arithmetic exercised by the claims is exact at this precision. -/
structure Q where
  n : ℤ
  d : ℕ
  pos : 0 < d
deriving DecidableEq

/-- Fuel-indexed Euclidean algorithm (the first argument strictly decreases
each step, so `a + 2` fuel always suffices). -/
def gcdF : ℕ → ℕ → ℕ → ℕ
| 0, _, b => b
| fuel + 1, a, b => if a = 0 then b else gcdF fuel (b % a) a

/-- Greatest common divisor. -/
def gcdN (a b : ℕ) : ℕ := gcdF (a + 2) a b

/-- Build the normalized rational `a / b`.  The callers below never pass a
zero denominator (division and inversion are guarded); that case returns 0. -/
def mkQ (a b : ℤ) : Q :=
  if b = 0 then ⟨0, 1, Nat.one_pos⟩
  else
    let s : ℤ := if b < 0 then -1 else 1
    let a' := s * a
    let b' := (s * b).toNat
    let g := gcdN a'.natAbs b'
    if hg : 0 < b' / g then ⟨a' / (g : ℤ), b' / g, hg⟩ else ⟨0, 1, Nat.one_pos⟩

instance (k : ℕ) : OfNat Q k := ⟨⟨(k : ℤ), 1, Nat.one_pos⟩⟩

/-- Negation (keeps lowest terms). -/
def qNeg (x : Q) : Q := ⟨-x.n, x.d, x.pos⟩

instance : Neg Q := ⟨qNeg⟩

/-- Addition. -/
def qAdd (x y : Q) : Q := mkQ (x.n * (y.d : ℤ) + y.n * (x.d : ℤ)) ((x.d : ℤ) * (y.d : ℤ))

/-- Subtraction. -/
def qSub (x y : Q) : Q := qAdd x (qNeg y)

/-- Multiplication. -/
def qMul (x y : Q) : Q := mkQ (x.n * y.n) ((x.d : ℤ) * (y.d : ℤ))

/-- Inverse (callers guard against zero). -/
def qInv (x : Q) : Q := mkQ (x.d : ℤ) x.n

/-- Division (callers guard against a zero divisor). -/
def qDiv (x y : Q) : Q := qMul x (qInv y)

/-- Natural power (keeps lowest terms). -/
def qPow (x : Q) (k : ℕ) : Q := ⟨x.n ^ k, x.d ^ k, Nat.pos_pow_of_pos k x.pos⟩

/-- Absolute value. -/
def qAbs (x : Q) : Q := ⟨|x.n|, x.d, x.pos⟩

/-- Strict order, by cross multiplication (denominators are positive). -/
def qLtB (x y : Q) : Bool := decide (x.n * (y.d : ℤ) < y.n * (x.d : ℤ))

/-- JavaScript `Math.max` on two rationals. -/
def qMax (x y : Q) : Q := if qLtB x y then y else x

/-- JavaScript `Math.min` on two rationals. -/
def qMin (x y : Q) : Q := if qLtB y x then y else x

/-- Fuel-indexed integer square root by upward search (the result is at most
`n`, so `n + 1` fuel suffices). -/
def sqrtNatGo (m : ℕ) : ℕ → ℕ → ℕ
| 0, k => k
| fuel + 1, k => if (k + 1) * (k + 1) ≤ m then sqrtNatGo m fuel (k + 1) else k

/-- Integer square root (largest `k` with `k * k ≤ n`). -/
def sqrtNat (m : ℕ) : ℕ := sqrtNatGo m m 0

/-- Modelled from the spec: a JavaScript/mathjs numeric value.  `fin q` is a
finite number (exact rational abstraction of the float), `inf`/`ninf` are the
two infinities, `nan` is NaN, and `nonNum` stands for any mathjs result that
is not a JavaScript number (such as a `Complex` value, which `typeof` does
not report as a number). -/
inductive MVal where
| fin (q : Q)
| inf
| ninf
| nan
| nonNum
deriving DecidableEq

/-- Is the value a finite JavaScript number (`typeof r === 'number' && isFinite(r)`)? -/
def MVal.isFiniteNum : MVal → Bool
| .fin _ => true
| _ => false

/-- Modelled from the spec: mathjs addition on numeric values. -/
def mvAdd : MVal → MVal → MVal
| .nonNum, _ => .nonNum
| _, .nonNum => .nonNum
| .nan, _ => .nan
| _, .nan => .nan
| .inf, .ninf => .nan
| .ninf, .inf => .nan
| .inf, _ => .inf
| _, .inf => .inf
| .ninf, _ => .ninf
| _, .ninf => .ninf
| .fin a, .fin b => .fin (qAdd a b)

/-- Modelled from the spec: mathjs negation. -/
def mvNeg : MVal → MVal
| .fin q => .fin (qNeg q)
| .inf => .ninf
| .ninf => .inf
| .nan => .nan
| .nonNum => .nonNum

/-- Modelled from the spec: mathjs subtraction. -/
def mvSub (a b : MVal) : MVal := mvAdd a (mvNeg b)

/-- Modelled from the spec: mathjs multiplication. -/
def mvMul : MVal → MVal → MVal
| .nonNum, _ => .nonNum
| _, .nonNum => .nonNum
| .nan, _ => .nan
| _, .nan => .nan
| .inf, .inf => .inf
| .inf, .ninf => .ninf
| .ninf, .inf => .ninf
| .ninf, .ninf => .inf
| .inf, .fin b => if qLtB 0 b then .inf else if qLtB b 0 then .ninf else .nan
| .fin a, .inf => if qLtB 0 a then .inf else if qLtB a 0 then .ninf else .nan
| .ninf, .fin b => if qLtB 0 b then .ninf else if qLtB b 0 then .inf else .nan
| .fin a, .ninf => if qLtB 0 a then .ninf else if qLtB a 0 then .inf else .nan
| .fin a, .fin b => .fin (qMul a b)

/-- Modelled from the spec: mathjs division, with the IEEE behavior that a
finite value divided by zero yields a (signed) infinity and `0/0` yields NaN. -/
def mvDiv : MVal → MVal → MVal
| .nonNum, _ => .nonNum
| _, .nonNum => .nonNum
| .nan, _ => .nan
| _, .nan => .nan
| .inf, .inf => .nan
| .inf, .ninf => .nan
| .ninf, .inf => .nan
| .ninf, .ninf => .nan
| .fin _, .inf => .fin 0
| .fin _, .ninf => .fin 0
| .inf, .fin b => if qLtB b 0 then .ninf else .inf
| .ninf, .fin b => if qLtB b 0 then .inf else .ninf
| .fin a, .fin b =>
  if b = 0 then (if qLtB 0 a then .inf else if qLtB a 0 then .ninf else .nan)
  else .fin (qDiv a b)

/-- Modelled from the spec: mathjs exponentiation on numeric values.  Exact
for integer exponents; a positive base raised to a fractional exponent is some
finite real, represented here by a fixed finite stand-in (no claim depends on
its numeric value); a negative base with a fractional exponent yields a mathjs
`Complex`, hence `nonNum`. -/
def mvPow : MVal → MVal → MVal
| .nonNum, _ => .nonNum
| _, .nonNum => .nonNum
| .nan, _ => .nan
| _, .nan => .nan
| .inf, _ => .nan
| .ninf, _ => .nan
| _, .inf => .nan
| _, .ninf => .nan
| .fin a, .fin b =>
  if b.d = 1 then
    if 0 ≤ b.n then .fin (qPow a b.n.toNat)
    else if a = 0 then .inf
    else .fin (qPow (qInv a) (-b.n).toNat)
  else if qLtB 0 a then .fin 1
  else if a = 0 then .fin 0
  else .nonNum

/-- Modelled from the spec: binary operator dispatch inside mathjs `evaluate`. -/
def mvBin (op : String) (a b : MVal) : MVal :=
  if op = "+" then mvAdd a b
  else if op = "-" then mvSub a b
  else if op = "*" then mvMul a b
  else if op = "/" then mvDiv a b
  else if op = "^" then mvPow a b
  else .nan

/-- Coercion of a mathjs result into a plain JavaScript number context: a
non-number object (Complex) coerces to NaN under native arithmetic. -/
def toJsNum : MVal → MVal
| .nonNum => .nan
| v => v

/-- Native JavaScript subtraction as used in the solver code itself. -/
def jsSub (a b : MVal) : MVal := mvSub (toJsNum a) (toJsNum b)

/-- Native JavaScript negation. -/
def jsNeg (a : MVal) : MVal := mvNeg (toJsNum a)

/-- Native JavaScript addition. -/
def jsAdd (a b : MVal) : MVal := mvAdd (toJsNum a) (toJsNum b)

/-- Native JavaScript multiplication. -/
def jsMul (a b : MVal) : MVal := mvMul (toJsNum a) (toJsNum b)

/-- Native JavaScript division. -/
def jsDiv (a b : MVal) : MVal := mvDiv (toJsNum a) (toJsNum b)

/-- JavaScript `Math.max`: NaN (and any non-number, which coerces to NaN)
poisons the result; `-Infinity` is the identity. -/
def mvMax : MVal → MVal → MVal
| .nan, _ => .nan
| _, .nan => .nan
| .nonNum, _ => .nan
| _, .nonNum => .nan
| .inf, _ => .inf
| _, .inf => .inf
| .ninf, b => b
| a, .ninf => a
| .fin a, .fin b => .fin (qMax a b)

/-- JavaScript `Math.min`. -/
def mvMin : MVal → MVal → MVal
| .nan, _ => .nan
| _, .nan => .nan
| .nonNum, _ => .nan
| _, .nonNum => .nan
| .ninf, _ => .ninf
| _, .ninf => .ninf
| .inf, b => b
| a, .inf => a
| .fin a, .fin b => .fin (qMin a b)

/-- JavaScript `Math.sqrt` on rationals (Modelled from the spec): exact on
rationals with a rational square root, an integer-precision approximation
otherwise (no claim depends on an inexact case). -/
def sqrtQ (q : Q) : Q := mkQ (sqrtNat (q.n.toNat * q.d) : ℤ) (q.d : ℤ)

/-- JavaScript `Math.sqrt` lifted to values (NaN on negative input). -/
def mvSqrt : MVal → MVal
| .fin q => if qLtB q 0 then .nan else .fin (sqrtQ q)
| .inf => .inf
| _ => .nan

/-- Rendering a rational to a string: integers render exactly as JavaScript
renders them; non-integers render as `num/den` (Modelled from the spec: the
claims only ever compare renderings of integers, where this coincides with
JavaScript number formatting). -/
def ratToStr (q : Q) : String :=
  if q.d = 1 then toString q.n else toString q.n ++ "/" ++ toString q.d

/-- JavaScript string interpolation / `math.format` of a numeric value. -/
def mvToStr : MVal → String
| .fin q => ratToStr q
| .inf => "Infinity"
| .ninf => "-Infinity"
| .nan => "NaN"
| .nonNum => "complex"

/-- Modelled from the spec: a mathjs expression tree.  Node kinds follow the
specification's glossary: operator nodes (unary and binary), function-call
nodes, symbol nodes and literal nodes.  (Explicit parentheses only group during
parsing; the spec's node-kind list has no parenthesis node.) -/
inductive Expr where
| num (q : Q)
| sym (s : String)
| unop (op : String) (arg : Expr)
| binop (op : String) (lhs rhs : Expr)
| fn (fname : String) (arg : Expr)
deriving DecidableEq

/-- Token of the supported grammar. -/
inductive Tok where
| tnum (q : Q)
| tid (s : String)
| tplus
| tminus
| tstar
| tslash
| tcaret
| tlp
| trp
| tcomma
deriving DecidableEq

/-- Numeric value of a digit character. -/
def digitVal (c : Char) : ℕ := c.toNat - 48

/-- Value of a digit string. -/
def digitsToNat (ds : List Char) : ℕ := ds.foldl (fun n c => 10 * n + digitVal c) 0

/-- Characters allowed inside an identifier. -/
def isIdentChar (c : Char) : Bool := c.isAlpha || c.isDigit || c = '_'

/-- Characters allowed to start an identifier. -/
def isIdentStart (c : Char) : Bool := c.isAlpha || c = '_'

/-- Modelled from the spec: the tokenizer of the supported grammar
(numbers with an optional decimal part, identifiers, `+ - * / ^ ( ) ,`,
whitespace skipped; anything else — in particular `=`, which the spec's
expression grammar does not contain — is a parse error).  Fuel-indexed;
each step consumes at least one character, so `length + 1` fuel suffices. -/
def tokenizeF : ℕ → List Char → Except String (List Tok)
| 0, _ => .error ("tokenizer: out of fuel")
| _ + 1, [] => .ok []
| fuel + 1, c :: cs =>
  if c.isWhitespace then tokenizeF fuel cs
  else if c.isDigit then
    let ds := cs.takeWhile Char.isDigit
    let rest := cs.dropWhile Char.isDigit
    let ip : Q := ⟨(digitsToNat (c :: ds) : ℤ), 1, Nat.one_pos⟩
    match rest with
    | '.' :: d :: rs =>
      if d.isDigit then
        let fs := d :: rs.takeWhile Char.isDigit
        let rest2 := rs.dropWhile Char.isDigit
        let q : Q := qAdd ip (mkQ (digitsToNat fs : ℤ) ((10 : ℤ) ^ fs.length))
        (tokenizeF fuel rest2).map (fun ts => Tok.tnum q :: ts)
      else .error ("unexpected character after decimal point")
    | _ => (tokenizeF fuel rest).map (fun ts => Tok.tnum ip :: ts)
  else if isIdentStart c then
    let ds := cs.takeWhile isIdentChar
    let rest := cs.dropWhile isIdentChar
    (tokenizeF fuel rest).map (fun ts => Tok.tid (String.mk (c :: ds)) :: ts)
  else if c = '+' then (tokenizeF fuel cs).map (fun ts => Tok.tplus :: ts)
  else if c = '-' then (tokenizeF fuel cs).map (fun ts => Tok.tminus :: ts)
  else if c = '*' then (tokenizeF fuel cs).map (fun ts => Tok.tstar :: ts)
  else if c = '/' then (tokenizeF fuel cs).map (fun ts => Tok.tslash :: ts)
  else if c = '^' then (tokenizeF fuel cs).map (fun ts => Tok.tcaret :: ts)
  else if c = '(' then (tokenizeF fuel cs).map (fun ts => Tok.tlp :: ts)
  else if c = ')' then (tokenizeF fuel cs).map (fun ts => Tok.trp :: ts)
  else if c = ',' then (tokenizeF fuel cs).map (fun ts => Tok.tcomma :: ts)
  else .error ("unexpected character")

/-- Tokenize a character list. -/
def tokenize (l : List Char) : Except String (List Tok) := tokenizeF (l.length + 1) l

mutual

/-- Additive level of the recursive-descent parser (Modelled from the spec's
grammar, with standard precedence `^` over `* /` over `+ -`, implicit
multiplication as in `2x`, unary minus below `^`). -/
def pAdd : ℕ → List Tok → Except String (Expr × List Tok)
| 0, _ => .error ("parser: out of fuel")
| fuel + 1, ts =>
  match pMul fuel ts with
  | .error e => .error e
  | .ok (l, ts1) => pAddLoop fuel l ts1

/-- Left-associative chain of `+`/`-`. -/
def pAddLoop : ℕ → Expr → List Tok → Except String (Expr × List Tok)
| 0, _, _ => .error ("parser: out of fuel")
| fuel + 1, acc, ts =>
  match ts with
  | Tok.tplus :: rest =>
    match pMul fuel rest with
    | .error e => .error e
    | .ok (r, ts2) => pAddLoop fuel (Expr.binop ("+") acc r) ts2
  | Tok.tminus :: rest =>
    match pMul fuel rest with
    | .error e => .error e
    | .ok (r, ts2) => pAddLoop fuel (Expr.binop ("-") acc r) ts2
  | _ => .ok (acc, ts)

/-- Multiplicative level. -/
def pMul : ℕ → List Tok → Except String (Expr × List Tok)
| 0, _ => .error ("parser: out of fuel")
| fuel + 1, ts =>
  match pUnary fuel ts with
  | .error e => .error e
  | .ok (l, ts1) => pMulLoop fuel l ts1

/-- Left-associative chain of `*`/`/`, including implicit multiplication when
a factor is directly followed by an identifier or an opening parenthesis. -/
def pMulLoop : ℕ → Expr → List Tok → Except String (Expr × List Tok)
| 0, _, _ => .error ("parser: out of fuel")
| fuel + 1, acc, ts =>
  match ts with
  | Tok.tstar :: rest =>
    match pUnary fuel rest with
    | .error e => .error e
    | .ok (r, ts2) => pMulLoop fuel (Expr.binop ("*") acc r) ts2
  | Tok.tslash :: rest =>
    match pUnary fuel rest with
    | .error e => .error e
    | .ok (r, ts2) => pMulLoop fuel (Expr.binop ("/") acc r) ts2
  | Tok.tid _ :: _ =>
    match pPow fuel ts with
    | .error e => .error e
    | .ok (r, ts2) => pMulLoop fuel (Expr.binop ("*") acc r) ts2
  | Tok.tlp :: _ =>
    match pPow fuel ts with
    | .error e => .error e
    | .ok (r, ts2) => pMulLoop fuel (Expr.binop ("*") acc r) ts2
  | _ => .ok (acc, ts)

/-- Unary level: prefix `-` and `+`. -/
def pUnary : ℕ → List Tok → Except String (Expr × List Tok)
| 0, _ => .error ("parser: out of fuel")
| fuel + 1, ts =>
  match ts with
  | Tok.tminus :: rest =>
    match pUnary fuel rest with
    | .error e => .error e
    | .ok (r, ts1) => .ok (Expr.unop ("-") r, ts1)
  | Tok.tplus :: rest =>
    match pUnary fuel rest with
    | .error e => .error e
    | .ok (r, ts1) => .ok (Expr.unop ("+") r, ts1)
  | _ => pPow fuel ts

/-- Power level; `^` is right-associative and its exponent may carry a unary sign. -/
def pPow : ℕ → List Tok → Except String (Expr × List Tok)
| 0, _ => .error ("parser: out of fuel")
| fuel + 1, ts =>
  match pAtom fuel ts with
  | .error e => .error e
  | .ok (b, ts1) =>
    match ts1 with
    | Tok.tcaret :: rest =>
      match pUnary fuel rest with
      | .error e => .error e
      | .ok (e, ts2) => .ok (Expr.binop ("^") b e, ts2)
    | _ => .ok (b, ts1)

/-- Atoms: number and symbol literals, single-argument function calls, and
parenthesized subexpressions (parentheses only group; the tree keeps no
parenthesis node, per the spec's node-kind list). -/
def pAtom : ℕ → List Tok → Except String (Expr × List Tok)
| 0, _ => .error ("parser: out of fuel")
| fuel + 1, ts =>
  match ts with
  | Tok.tnum q :: rest => .ok (Expr.num q, rest)
  | Tok.tid s :: Tok.tlp :: rest =>
    match pAdd fuel rest with
    | .error e => .error e
    | .ok (a, Tok.trp :: ts2) => .ok (Expr.fn s a, ts2)
    | .ok _ => .error ("expected closing parenthesis")
  | Tok.tid s :: rest => .ok (Expr.sym s, rest)
  | Tok.tlp :: rest =>
    match pAdd fuel rest with
    | .error e => .error e
    | .ok (a, Tok.trp :: ts2) => .ok (a, ts2)
    | .ok _ => .error ("unbalanced parentheses")
  | _ => .error ("unexpected token")

end

/-- Modelled from the spec: `math.parse` on a character list. -/
def parseChars (l : List Char) : Except String Expr :=
  match tokenize l with
  | .error e => .error e
  | .ok [] => .error ("empty expression")
  | .ok ts =>
    match pAdd (8 * ts.length + 8) ts with
    | .ok (e, []) => .ok e
    | .ok _ => .error ("unexpected trailing tokens")
    | .error e => .error e

/-- Modelled from the spec: `math.parse` on a string. -/
def parseE (s : String) : Except String Expr := parseChars s.data

/-- Precedence of a binary operator for printing. -/
def opPrec (op : String) : ℕ :=
  if op = "+" ∨ op = "-" then 1
  else if op = "*" ∨ op = "/" then 2
  else if op = "^" then 3
  else 0

/-- Modelled from the spec: rendering an expression tree back to a string
(`node.toString()`), with parentheses inserted by precedence. -/
def render : Expr → ℕ → String
| .num q, ctx =>
  let s := ratToStr q
  if (q.d = 1 ∧ 0 ≤ q.n) ∨ ctx = 0 then s else "(" ++ s ++ ")"
| .sym s, _ => s
| .fn f a, _ => f ++ "(" ++ render a 0 ++ ")"
| .unop op a, ctx =>
  let s := op ++ render a 3
  if ctx ≤ 2 then s else "(" ++ s ++ ")"
| .binop op l r, ctx =>
  let p := opPrec op
  let s :=
    if op = "^" then render l 4 ++ op ++ render r p
    else render l p ++ op ++ render r (p + 1)
  if ctx ≤ p then s else "(" ++ s ++ ")"

/-- `node.toString()`. -/
def exprToString (e : Expr) : String := render e 0

/-- Exact rational stand-in for the float `Math.PI`. -/
def piQ : Q := mkQ 3141592653589793 1000000000000000

/-- Exact rational stand-in for the float `Math.E`. -/
def eQ : Q := mkQ 2718281828459045 1000000000000000

/-- Modelled from the spec: the named constants the evaluator knows
(`e`, `pi`, `i`, plus the JavaScript `Infinity`/`NaN` symbols). -/
def constVal (s : String) : Option MVal :=
  if s = "pi" then some (.fin piQ)
  else if s = "e" then some (.fin eQ)
  else if s = "i" then some .nonNum
  else if s = "Infinity" then some .inf
  else if s = "NaN" then some .nan
  else none

/-- Modelled from the spec: applying a named function to an evaluated
argument.  `sqrt` and `abs` are exact; the transcendental functions
(`sin, cos, tan, log, exp`) return total real values, represented by fixed
finite stand-ins — no claim depends on their numeric output, only on their
finiteness and on error propagation.  An unknown function name throws. -/
def applyFun (f : String) (v : MVal) : Except String MVal :=
  if f = "sqrt" then
    match v with
    | .fin q => if qLtB q 0 then .ok .nonNum else .ok (.fin (sqrtQ q))
    | .inf => .ok .inf
    | .nonNum => .ok .nonNum
    | _ => .ok .nan
  else if f = "abs" then
    match v with
    | .fin q => .ok (.fin (qAbs q))
    | .inf => .ok .inf
    | .ninf => .ok .inf
    | .nonNum => .ok .nonNum
    | .nan => .ok .nan
  else if f = "sin" ∨ f = "tan" then
    match v with
    | .fin _ => .ok (.fin 0)
    | .nonNum => .ok .nonNum
    | _ => .ok .nan
  else if f = "cos" then
    match v with
    | .fin _ => .ok (.fin 1)
    | .nonNum => .ok .nonNum
    | _ => .ok .nan
  else if f = "exp" then
    match v with
    | .fin _ => .ok (.fin 1)
    | .inf => .ok .inf
    | .ninf => .ok (.fin 0)
    | .nonNum => .ok .nonNum
    | .nan => .ok .nan
  else if f = "log" then
    match v with
    | .fin q => if qLtB 0 q then .ok (.fin 0) else if q = 0 then .ok .ninf else .ok .nonNum
    | .inf => .ok .inf
    | .nonNum => .ok .nonNum
    | _ => .ok .nan
  else .error ("Undefined function " ++ f)

/-- Modelled from the spec: mathjs evaluation of a tree under a scope binding
variable names to numbers.  An unbound, non-constant symbol throws
`Undefined symbol`. -/
def evalScope (scope : List (String × Q)) : Expr → Except String MVal
| .num q => .ok (.fin q)
| .sym s =>
  match scope.find? (fun p => p.1 == s) with
  | some p => .ok (.fin p.2)
  | none =>
    match constVal s with
    | some v => .ok v
    | none => .error ("Undefined symbol " ++ s)
| .unop op a =>
  match evalScope scope a with
  | .error e => .error e
  | .ok v => .ok (if op = "-" then mvNeg v else v)
| .binop op l r =>
  match evalScope scope l with
  | .error e => .error e
  | .ok vl =>
    match evalScope scope r with
    | .error e => .error e
    | .ok vr => .ok (mvBin op vl vr)
| .fn f a =>
  match evalScope scope a with
  | .error e => .error e
  | .ok v => applyFun f v

/-- `math.evaluate(str)` with no scope: parse, then evaluate. -/
def evalStr (s : String) : Except String MVal :=
  match parseE s with
  | .error e => .error e
  | .ok e => evalScope [] e

end MathSteps
namespace MathSteps

/-- Modelled from the spec: `math.simplify` — algebraic simplification by
constant folding plus elimination of the arithmetic identities
`x+0, 0+x, x-0, x*1, 1*x, x*0, 0*x, x/1, x^1, x^0`; folding keeps a division
by the literal zero and a fractional-exponent power unevaluated. -/
def simplifyE : Expr → Expr
| .num q => .num q
| .sym s => .sym s
| .fn f a => .fn f (simplifyE a)
| .unop op a =>
  let a' := simplifyE a
  if op = "-" then
    match a' with
    | .num q => .num (-q)
    | _ => .unop op a'
  else .unop op a'
| .binop op l r =>
  let l' := simplifyE l
  let r' := simplifyE r
  match l', r' with
  | .num a, .num b =>
    if op = "+" then .num (qAdd a b)
    else if op = "-" then .num (qSub a b)
    else if op = "*" then .num (qMul a b)
    else if op = "/" then (if b = 0 then .binop op l' r' else .num (qDiv a b))
    else if op = "^" then
      (if b.d = 1 ∧ 0 ≤ b.n then .num (qPow a b.n.toNat) else .binop op l' r')
    else .binop op l' r'
  | _, _ =>
    if op = "+" then
      (if l' = .num 0 then r' else if r' = .num 0 then l' else .binop op l' r')
    else if op = "-" then
      (if r' = .num 0 then l' else .binop op l' r')
    else if op = "*" then
      (if l' = .num 1 then r' else if r' = .num 1 then l'
       else if l' = .num 0 ∨ r' = .num 0 then .num 0 else .binop op l' r')
    else if op = "/" then
      (if r' = .num 1 then l' else .binop op l' r')
    else if op = "^" then
      (if r' = .num 1 then l' else if r' = .num 0 then .num 1 else .binop op l' r')
    else .binop op l' r'

/-- One explanation unit of a solution (interface `SolutionStep`). -/
structure SolutionStep where
  description : String
  formula : String
  explanation : String
  detailedExplanation : Option String
deriving DecidableEq

/-- Plotting hint (interface `VisualizationData`; the `data` field for
bar/pie charts is never produced by either solver and is omitted). -/
structure VisualizationData where
  vtype : String
  expression : String
  varName : String
  xRange : MVal × MVal
  solutionPoints : Option (List MVal)
deriving DecidableEq

/-- Difficulty tag of a solution. -/
inductive Difficulty where
| basic
| intermediate
| advanced
deriving DecidableEq

/-- The full output of one `solve` call (interface `Solution`). -/
structure Solution where
  steps : List SolutionStep
  result : String
  type : String
  difficulty : Difficulty
  visualization : Option VisualizationData
deriving DecidableEq

/-- JavaScript `String.prototype.trim` on a character list. -/
def trimChars (l : List Char) : List Char :=
  ((l.dropWhile Char.isWhitespace).reverse.dropWhile Char.isWhitespace).reverse

/-- JavaScript `String.prototype.split` with a one-character separator:
auxiliary accumulator form. -/
def splitOnChar (sep : Char) : List Char → List Char → List (List Char)
| [], acc => [acc.reverse]
| c :: cs, acc =>
  if c = sep then acc.reverse :: splitOnChar sep cs [] else splitOnChar sep cs (c :: acc)

/-- `input.split('=')` on a character list. -/
def splitEq (l : List Char) : List (List Char) := splitOnChar '=' l []

/-- JavaScript `String.prototype.replace(new RegExp(pat, 'g'), rep)` for a
plain (metacharacter-free) pattern: replace every non-overlapping occurrence,
scanning left to right.  Fuel-indexed; every step consumes at least one
character, so `length + 1` fuel suffices. -/
def replaceF (pat rep : List Char) : ℕ → List Char → List Char
| 0, l => l
| _ + 1, [] => []
| fuel + 1, c :: cs =>
  if pat.isPrefixOf (c :: cs) then rep ++ replaceF pat rep fuel ((c :: cs).drop pat.length)
  else c :: replaceF pat rep fuel cs

/-- Global string replacement (the pattern is a variable name or
`name^2`, never empty and never containing regex metacharacters). -/
def replaceAllStr (s pat rep : String) : String :=
  String.mk (replaceF pat.data rep.data (s.data.length + 1) s.data)

namespace CalculationSolver

/-- `CalculationSolver.isValidExpression`: the input parses. -/
def isValidExpression (input : String) : Bool :=
  match parseE input with
  | .ok _ => true
  | .error _ => false

/-- `CalculationSolver.canSolve`: no `=` sign and the input parses. -/
def canSolve (input : String) : Bool :=
  !(input.data.contains '=') && isValidExpression input

/-- `CalculationSolver.getType`. -/
def getType : String := "calculation"

/-- Is the node an operator or function node (the `args.some` test body)? -/
def isOpFnNode : Expr → Bool
| .unop _ _ => true
| .binop _ _ _ => true
| .fn _ _ => true
| _ => false

/-- `CalculationSolver.isComplexExpression`: an operator node with an
operator/function child, or a function node. -/
def isComplexExpression : Expr → Bool
| .unop _ a => isOpFnNode a
| .binop _ l r => isOpFnNode l || isOpFnNode r
| .fn _ _ => true
| _ => false

/-- `CalculationSolver.getOperatorSymbol`. -/
def getOperatorSymbol (op : String) : String :=
  if op = "+" then "+"
  else if op = "-" then "−"
  else if op = "*" then "×"
  else if op = "/" then "÷"
  else if op = "^" then "^"
  else op

/-- `CalculationSolver.getOperationName`. -/
def getOperationName (op : String) : String :=
  if op = "+" then "сложения"
  else if op = "-" then "вычитания"
  else if op = "*" then "умножения"
  else if op = "/" then "деления"
  else if op = "^" then "возведения в степень"
  else op

/-- `CalculationSolver.generateSubSteps`: one-level decomposition of a complex
expression.  Any evaluation failure inside is caught and logged, so the steps
pushed before the failure (if any) are kept and the rest are skipped.  For a
unary operator node the code reads the missing second argument and throws
before pushing anything. -/
def generateSubSteps (node : Expr) : List SolutionStep :=
  match node with
  | .binop op l r =>
    match evalStr (exprToString l), evalStr (exprToString r) with
    | .ok lv, .ok rv =>
      let sub1 : SolutionStep :=
        { description := "Вычисление подвыражений"
          formula := exprToString l ++ " = " ++ mvToStr lv ++ ", " ++ exprToString r ++ " = " ++ mvToStr rv
          explanation := "Вычисляем каждую часть выражения отдельно."
          detailedExplanation := some ("Разбиение сложного выражения на более простые части позволяет последовательно вычислить результат, применяя базовые арифметические операции.") }
      match evalStr (mvToStr lv ++ " " ++ op ++ " " ++ mvToStr rv) with
      | .ok comb =>
        [sub1,
         { description := "Применение операции"
           formula := mvToStr lv ++ " " ++ getOperatorSymbol op ++ " " ++ mvToStr rv ++ " = " ++ mvToStr comb
           explanation := "Выполняем операцию " ++ getOperationName op ++ "."
           detailedExplanation := some ("Применяем операцию " ++ getOperationName op ++ " к вычисленным значениям подвыражений.") }]
      | .error _ => [sub1]
    | _, _ => []
  | .unop _ _ => []
  | .fn f a =>
    match evalStr (exprToString a) with
    | .error _ => []
    | .ok av =>
      match evalStr (exprToString (Expr.fn f a)) with
      | .error _ => []
      | .ok rv =>
        [{ description := "Вычисление аргументов функции " ++ f
           formula := exprToString a ++ " = " ++ mvToStr av
           explanation := "Вычисляем значения аргументов функции."
           detailedExplanation := some ("Перед применением функции необходимо вычислить значения всех её аргументов.") },
         { description := "Применение функции " ++ f
           formula := f ++ "(" ++ mvToStr av ++ ") = " ++ mvToStr rv
           explanation := "Вычисляем результат функции " ++ f ++ "."
           detailedExplanation := some ("Применяем функцию " ++ f ++ " к вычисленным значениям аргументов.") }]
  | _ => []

/-- `CalculationSolver.findVariables` accumulator: symbols in first-occurrence
order, excluding the constants `e`, `pi`, `i`; this solver's traversal descends
both operator and function nodes. -/
def findVarsGo : Expr → List String → List String
| .num _, acc => acc
| .sym s, acc =>
  if s = "e" ∨ s = "pi" ∨ s = "i" then acc
  else if s ∈ acc then acc else acc ++ [s]
| .unop _ a, acc => findVarsGo a acc
| .binop _ l r, acc => findVarsGo r (findVarsGo l acc)
| .fn _ a, acc => findVarsGo a acc

/-- `CalculationSolver.findVariables`. -/
def findVariables (e : Expr) : List String := findVarsGo e []

/-- The fixed sample points of the visualization-eligibility test. -/
def testValues : List Q := [-5, -1, 0, 1, 5]

/-- `CalculationSolver.isVisualizableExpression`: the expression compiles and
every sample evaluates to a finite number. -/
def isVisualizableExpression (expression varName : String) : Bool :=
  match parseE expression with
  | .error _ => false
  | .ok e =>
    testValues.all (fun v =>
      match evalScope [(varName, v)] e with
      | .ok r => r.isFiniteNum
      | .error _ => false)

/-- `CalculationSolver.determineDifficulty` traversal accumulator:
operator-node count, any-function flag, transcendental-function flag. -/
def diffGo : Expr → ℕ × Bool × Bool → ℕ × Bool × Bool
| .num _, acc => acc
| .sym _, acc => acc
| .unop _ a, acc => diffGo a (acc.1 + 1, acc.2.1, acc.2.2)
| .binop _ l r, acc => diffGo r (diffGo l (acc.1 + 1, acc.2.1, acc.2.2))
| .fn g a, acc =>
  diffGo a (acc.1, true, acc.2.2 || (g = "sin" || g = "cos" || g = "tan" || g = "log" || g = "exp"))

/-- `CalculationSolver.determineDifficulty`. -/
def determineDifficulty (e : Expr) : Difficulty :=
  let acc := diffGo e (0, false, false)
  if acc.2.2 || decide (3 < acc.1) then .advanced
  else if acc.2.1 || decide (1 < acc.1) then .intermediate
  else .basic

/-- The body of `CalculationSolver.solve` (the `try` block); `.error` models a
thrown exception reaching the `catch`. -/
def solveBody (input : String) : Except String Solution :=
  match parseE input with
  | .error e => .error e
  | .ok node =>
    let step1 : SolutionStep :=
      { description := "Анализ выражения"
        formula := input
        explanation := "Разбираем математическое выражение на составные части."
        detailedExplanation := some ("Математический парсер анализирует структуру выражения, определяя операции, операнды и их порядок вычисления согласно правилам математики.") }
    let step2 : SolutionStep :=
      { description := "Структура выражения"
        formula := exprToString node
        explanation := "Представляем выражение в структурированном виде для анализа."
        detailedExplanation := some ("Структурное представление показывает иерархию операций в выражении, что помогает понять порядок вычислений.") }
    let steps2 := if isComplexExpression node then [step1, step2] ++ generateSubSteps node else [step1, step2]
    match evalStr input with
    | .error e => .error e
    | .ok result =>
      let steps3 := steps2 ++
        [{ description := "Итоговый результат"
           formula := input ++ " = " ++ mvToStr result
           explanation := "Получаем окончательный результат вычисления выражения."
           detailedExplanation := some ("После выполнения всех операций в правильном порядке, получаем числовое значение, которое является результатом вычисления исходного выражения.") }]
      let visualization : Option VisualizationData :=
        match findVariables node with
        | [v] =>
          if !(input.data.contains '=') && isVisualizableExpression input v then
            some { vtype := "function-graph", expression := input, varName := v
                   xRange := (.fin (-10), .fin 10), solutionPoints := none }
          else none
        | _ => none
      .ok { steps := steps3, result := mvToStr result, type := "calculation"
            difficulty := determineDifficulty node, visualization := visualization }

/-- The single-step `calculation-error` solution built by `solve`'s catch
clause, with the failure message embedded in the step's explanation. -/
def errorSolution (input msg : String) : Solution :=
  { steps :=
      [{ description := "Ошибка вычисления"
         formula := input
         explanation := "Произошла ошибка при вычислении: " ++ msg
         detailedExplanation := none }]
    result := "Ошибка", type := "calculation-error", difficulty := .basic
    visualization := none }

/-- `CalculationSolver.solve`: the catch clause turns any internal failure into
a single-step `calculation-error` solution. -/
def solve (input : String) : Solution :=
  match solveBody input with
  | .ok s => s
  | .error msg => errorSolution input msg

end CalculationSolver

end MathSteps

namespace MathSteps

namespace AlgebraicSolver

/-- `AlgebraicSolver.getType`. -/
def getType : String := "algebraic"

/-- `AlgebraicSolver.isValidEquation`: exactly two `=`-separated parts, both
of which parse. -/
def isValidEquation (input : String) : Bool :=
  match splitEq input.data with
  | [l, r] =>
    (match parseChars l with
     | .ok _ => (match parseChars r with | .ok _ => true | .error _ => false)
     | .error _ => false)
  | _ => false

/-- `AlgebraicSolver.canSolve`: contains `=` and is a valid equation. -/
def canSolve (input : String) : Bool :=
  input.data.contains '=' && isValidEquation input

/-- `AlgebraicSolver.findVariables` accumulator: symbols in first-occurrence
order, excluding the constants `e`, `pi`, `i`.  Unlike the calculation
solver's search, this traversal recurses only into operator nodes — never
into function-call arguments. -/
def findVarsGo : Expr → List String → List String
| .num _, acc => acc
| .sym s, acc =>
  if s = "e" ∨ s = "pi" ∨ s = "i" then acc
  else if s ∈ acc then acc else acc ++ [s]
| .unop _ a, acc => findVarsGo a acc
| .binop _ l r, acc => findVarsGo r (findVarsGo l acc)
| .fn _ _, acc => acc

/-- `AlgebraicSolver.findVariables`. -/
def findVariables (e : Expr) : List String := findVarsGo e []

/-- `AlgebraicSolver.findHighestDegree` traversal.  `cur` is the
`currentDegree` parameter (always `1`); `acc` is the running `highestDegree`.
A `^` node whose base is exactly the variable contributes its evaluated
exponent when that evaluation yields a JavaScript number (evaluation failures
are ignored), and is not descended further; a unary `^` node with the variable
as its only argument makes the code read the missing second argument, which
throws inside the guarded block and is likewise ignored.  Function-call nodes
are never descended. -/
def fhdGo (v : String) : Expr → MVal → MVal → MVal
| .num _, _, acc => acc
| .sym s, cur, acc => if s = v then mvMax acc cur else acc
| .fn _ _, _, acc => acc
| .unop op a, cur, acc =>
  if op = "^" ∧ a = Expr.sym v then acc else fhdGo v a cur acc
| .binop op l r, cur, acc =>
  if op = "^" ∧ l = Expr.sym v then
    match evalStr (exprToString r) with
    | .ok .nonNum => acc
    | .ok w => mvMax acc w
    | .error _ => acc
  else fhdGo v r cur (fhdGo v l cur acc)

/-- `AlgebraicSolver.findHighestDegree`: `highestDegree` starts at `0` and the
root traversal call uses `currentDegree = 1`. -/
def findHighestDegree (e : Expr) (v : String) : MVal := fhdGo v e (.fin 1) (.fin 0)

/-- Equation classification tag. -/
inductive EqType where
| linear
| quadratic
| unknown
deriving DecidableEq

/-- `AlgebraicSolver.determineEquationType`: parse the simplified standard
form, find the variables, and classify by the first variable's highest degree;
any parse failure is caught and yields `unknown`. -/
def determineEquationType (expression : String) : EqType :=
  match parseE expression with
  | .error _ => .unknown
  | .ok node =>
    match findVariables node with
    | [] => .unknown
    | v :: _ =>
      let d := findHighestDegree node v
      if d = .fin 1 then .linear
      else if d = .fin 2 then .quadratic
      else .unknown

/-- `AlgebraicSolver.collectCoefficients`: textual substitution of the
variable by `1` and by `0`, then evaluation; `a = value(1) − value(0)`,
`b = value(0)`.  Any evaluation failure is rethrown with a wrapped message. -/
def collectCoefficients (expression varName : String) : Except String (MVal × MVal) :=
  let withOne := replaceAllStr expression varName "1"
  let withZero := replaceAllStr expression varName "0"
  match evalStr withOne with
  | .error m => .error ("Не удалось собрать коэффициенты: " ++ m)
  | .ok v1 =>
    match evalStr withZero with
    | .error m => .error ("Не удалось собрать коэффициенты: " ++ m)
    | .ok v0 => .ok (jsSub v1 v0, v0)

/-- `AlgebraicSolver.collectQuadraticCoefficients`: textual substitution of
`var^2` and `var` by literals (`1,0` for `a`; `0,1` and `0,0` for `b`; `0,0`
for `c`), then evaluation. -/
def collectQuadraticCoefficients (expression varName : String) :
    Except String (MVal × MVal × MVal) :=
  let withOneSquare := replaceAllStr (replaceAllStr expression (varName ++ "^2") "1") varName "0"
  let withOneX := replaceAllStr (replaceAllStr expression (varName ++ "^2") "0") varName "1"
  let withZero := replaceAllStr (replaceAllStr expression (varName ++ "^2") "0") varName "0"
  match evalStr withOneSquare with
  | .error m => .error ("Не удалось собрать коэффициенты: " ++ m)
  | .ok va =>
    match evalStr withOneX with
    | .error m => .error ("Не удалось собрать коэффициенты: " ++ m)
    | .ok vbx =>
      match evalStr withZero with
      | .error m => .error ("Не удалось собрать коэффициенты: " ++ m)
      | .ok v0 => .ok (va, jsSub vbx v0, v0)

/-- The error step pushed by `solveLinearEquation`'s catch clause. -/
def linearErrorStep (expression msg : String) : SolutionStep :=
  { description := "Ошибка решения"
    formula := expression
    explanation := "Произошла ошибка при решении линейного уравнения: " ++ msg
    detailedExplanation := none }

/-- The no-variable error step shared by both branch solvers. -/
def noVariableStep (expression : String) : SolutionStep :=
  { description := "Ошибка решения"
    formula := expression
    explanation := "Не удалось найти переменную в уравнении."
    detailedExplanation := none }

/-- `AlgebraicSolver.solveLinearEquation`.  The leading `math.parse` sits
outside the `try`, so its failure propagates (`.error`) to `solve`'s catch;
failures inside the guarded region append an error step to the steps built so
far and return a `linear-equation-error` solution. -/
def solveLinearEquation (expression : String) (steps : List SolutionStep) :
    Except String Solution :=
  match parseE expression with
  | .error e => .error e
  | .ok node =>
    match findVariables node with
    | [] =>
      .ok { steps := steps ++ [noVariableStep expression]
            result := "Ошибка: нет переменной", type := "linear-equation-error"
            difficulty := .basic, visualization := none }
    | v :: _ =>
      match collectCoefficients expression v with
      | .error msg =>
        .ok { steps := steps ++ [linearErrorStep expression msg]
              result := "Ошибка решения", type := "linear-equation-error"
              difficulty := .basic, visualization := none }
      | .ok (a, b) =>
        let step3 : SolutionStep :=
          { description := "Группировка членов"
            formula := mvToStr a ++ v ++ " + " ++ mvToStr b ++ " = 0"
            explanation := "Группируем члены с переменной и без переменной."
            detailedExplanation := some ("Для решения линейного уравнения необходимо сгруппировать все члены с переменной в левой части и все свободные члены в правой части.") }
        let step4 : SolutionStep :=
          { description := "Перенос свободного члена"
            formula := mvToStr a ++ v ++ " = " ++ mvToStr (jsNeg b)
            explanation := "Переносим свободный член в правую часть уравнения с противоположным знаком."
            detailedExplanation := some ("При переносе члена из одной части уравнения в другую его знак меняется на противоположный.") }
        let solution := jsDiv (jsNeg b) a
        let step5 : SolutionStep :=
          { description := "Деление на коэффициент при переменной"
            formula := v ++ " = \\frac\x7b" ++ mvToStr (jsNeg b) ++ "\x7d\x7b" ++ mvToStr a ++ "\x7d = " ++ mvToStr solution
            explanation := "Делим обе части уравнения на коэффициент при " ++ v ++ "."
            detailedExplanation := some ("Чтобы найти значение переменной, делим обе части уравнения на коэффициент при этой переменной.") }
        match evalStr (mvToStr a ++ " * " ++ mvToStr solution ++ " + " ++ mvToStr b) with
        | .error msg =>
          .ok { steps := steps ++ [step3, step4, step5, linearErrorStep expression msg]
                result := "Ошибка решения", type := "linear-equation-error"
                difficulty := .basic, visualization := none }
        | .ok checkLeft =>
          let step6 : SolutionStep :=
            { description := "Проверка решения"
              formula := mvToStr a ++ " \\cdot " ++ mvToStr solution ++ " + " ++ mvToStr b ++ " = " ++ mvToStr checkLeft ++ " \\approx 0"
              explanation := "Подставляем найденное значение переменной в исходное уравнение для проверки."
              detailedExplanation := some ("Для проверки правильности решения подставляем найденное значение переменной в исходное уравнение и проверяем, что левая часть равна правой.") }
          .ok { steps := steps ++ [step3, step4, step5, step6]
                result := v ++ " = " ++ mvToStr solution
                type := "linear-equation", difficulty := .basic
                visualization := some
                  { vtype := "function-graph", expression := expression, varName := v
                    xRange := (jsSub solution (.fin 5), jsAdd solution (.fin 5))
                    solutionPoints := some [solution] } }

/-- The error step pushed by `solveQuadraticEquation`'s catch clause. -/
def quadraticErrorStep (expression msg : String) : SolutionStep :=
  { description := "Ошибка решения"
    formula := expression
    explanation := "Произошла ошибка при решении квадратного уравнения: " ++ msg
    detailedExplanation := none }

/-- `d > 0` as JavaScript compares numbers (NaN and non-numbers are not
greater than zero). -/
def mvGtZero : MVal → Bool
| .fin q => qLtB 0 q
| .inf => true
| _ => false

/-- `AlgebraicSolver.solveQuadraticEquation`.  Structure mirrors the linear
branch: leading parse failures propagate; failures inside the guarded region
append an error step to the accumulated steps. -/
def solveQuadraticEquation (expression : String) (steps : List SolutionStep) :
    Except String Solution :=
  match parseE expression with
  | .error e => .error e
  | .ok node =>
    match findVariables node with
    | [] =>
      .ok { steps := steps ++ [noVariableStep expression]
            result := "Ошибка: нет переменной", type := "quadratic-equation-error"
            difficulty := .intermediate, visualization := none }
    | v :: _ =>
      match collectQuadraticCoefficients expression v with
      | .error msg =>
        .ok { steps := steps ++ [quadraticErrorStep expression msg]
              result := "Ошибка решения", type := "quadratic-equation-error"
              difficulty := .intermediate, visualization := none }
      | .ok (a, b, c) =>
        let step3 : SolutionStep :=
          { description := "Стандартная форма квадратного уравнения"
            formula := mvToStr a ++ v ++ "^2 + " ++ mvToStr b ++ v ++ " + " ++ mvToStr c ++ " = 0"
            explanation := "Записываем уравнение в стандартной форме ax² + bx + c = 0."
            detailedExplanation := some ("Квадратное уравнение в стандартной форме имеет вид ax² + bx + c = 0, где a, b и c - числовые коэффициенты, а a ≠ 0.") }
        let d := jsSub (jsMul b b) (jsMul (jsMul (.fin 4) a) c)
        let step4 : SolutionStep :=
          { description := "Вычисление дискриминанта"
            formula := "D = b^2 - 4ac = " ++ mvToStr b ++ "^2 - 4 \\cdot " ++ mvToStr a ++ " \\cdot " ++ mvToStr c ++ " = " ++ mvToStr d
            explanation := "Вычисляем дискриминант по формуле D = b² - 4ac."
            detailedExplanation := some ("Дискриминант квадратного уравнения определяет количество и характер его корней: если D > 0, то уравнение имеет два различных действительных корня; если D = 0, то уравнение имеет один действительный корень (двойной); если D < 0, то уравнение не имеет действительных корней.") }
        if mvGtZero d then
          let x1 := jsDiv (jsAdd (jsNeg b) (mvSqrt d)) (jsMul (.fin 2) a)
          let x2 := jsDiv (jsSub (jsNeg b) (mvSqrt d)) (jsMul (.fin 2) a)
          let step5 : SolutionStep :=
            { description := "Нахождение корней"
              formula := v ++ "_1 = \\frac\x7b-b + \\sqrt\x7bD\x7d\x7d\x7b2a\x7d = \\frac\x7b" ++ mvToStr (jsNeg b) ++ " + \\sqrt\x7b" ++ mvToStr d ++ "\x7d\x7d\x7b2 \\cdot " ++ mvToStr a ++ "\x7d = " ++ mvToStr x1 ++ "\\\\\n" ++ v ++ "_2 = \\frac\x7b-b - \\sqrt\x7bD\x7d\x7d\x7b2a\x7d = \\frac\x7b" ++ mvToStr (jsNeg b) ++ " - \\sqrt\x7b" ++ mvToStr d ++ "\x7d\x7d\x7b2 \\cdot " ++ mvToStr a ++ "\x7d = " ++ mvToStr x2
              explanation := "Находим два корня уравнения по формуле x = (-b ± √D) / (2a)."
              detailedExplanation := some ("Для квадратного уравнения с положительным дискриминантом существуют два различных действительных корня, которые находятся по формуле x = (-b ± √D) / (2a).") }
          match evalStr (mvToStr a ++ " * " ++ mvToStr x1 ++ "^2 + " ++ mvToStr b ++ " * " ++ mvToStr x1 ++ " + " ++ mvToStr c) with
          | .error msg =>
            .ok { steps := steps ++ [step3, step4, step5, quadraticErrorStep expression msg]
                  result := "Ошибка решения", type := "quadratic-equation-error"
                  difficulty := .intermediate, visualization := none }
          | .ok chk1 =>
            match evalStr (mvToStr a ++ " * " ++ mvToStr x2 ++ "^2 + " ++ mvToStr b ++ " * " ++ mvToStr x2 ++ " + " ++ mvToStr c) with
            | .error msg =>
              .ok { steps := steps ++ [step3, step4, step5, quadraticErrorStep expression msg]
                    result := "Ошибка решения", type := "quadratic-equation-error"
                    difficulty := .intermediate, visualization := none }
            | .ok chk2 =>
              let step6 : SolutionStep :=
                { description := "Проверка решения"
                  formula := mvToStr a ++ "(" ++ mvToStr x1 ++ ")^2 + " ++ mvToStr b ++ "(" ++ mvToStr x1 ++ ") + " ++ mvToStr c ++ " = " ++ mvToStr chk1 ++ " \\approx 0\\\\\n" ++ mvToStr a ++ "(" ++ mvToStr x2 ++ ")^2 + " ++ mvToStr b ++ "(" ++ mvToStr x2 ++ ") + " ++ mvToStr c ++ " = " ++ mvToStr chk2 ++ " \\approx 0"
                  explanation := "Подставляем найденные значения переменной в исходное уравнение для проверки."
                  detailedExplanation := some ("Для проверки правильности решения подставляем найденные значения переменной в исходное уравнение и проверяем, что левая часть равна правой.") }
              .ok { steps := steps ++ [step3, step4, step5, step6]
                    result := v ++ "_1 = " ++ mvToStr x1 ++ ", " ++ v ++ "_2 = " ++ mvToStr x2
                    type := "quadratic-equation", difficulty := .intermediate
                    visualization := some
                      { vtype := "function-graph", expression := expression, varName := v
                        xRange := (jsSub (mvMin x1 x2) (.fin 3), jsAdd (mvMax x1 x2) (.fin 3))
                        solutionPoints := some [x1, x2] } }
        else if d = .fin 0 then
          let x := jsDiv (jsNeg b) (jsMul (.fin 2) a)
          let step5 : SolutionStep :=
            { description := "Нахождение корня"
              formula := v ++ " = \\frac\x7b-b\x7d\x7b2a\x7d = \\frac\x7b" ++ mvToStr (jsNeg b) ++ "\x7d\x7b2 \\cdot " ++ mvToStr a ++ "\x7d = " ++ mvToStr x
              explanation := "Находим единственный корень уравнения по формуле x = -b / (2a)."
              detailedExplanation := some ("Для квадратного уравнения с нулевым дискриминантом существует один действительный корень (двойной), который находится по формуле x = -b / (2a).") }
          match evalStr (mvToStr a ++ " * " ++ mvToStr x ++ "^2 + " ++ mvToStr b ++ " * " ++ mvToStr x ++ " + " ++ mvToStr c) with
          | .error msg =>
            .ok { steps := steps ++ [step3, step4, step5, quadraticErrorStep expression msg]
                  result := "Ошибка решения", type := "quadratic-equation-error"
                  difficulty := .intermediate, visualization := none }
          | .ok chk =>
            let step6 : SolutionStep :=
              { description := "Проверка решения"
                formula := mvToStr a ++ "(" ++ mvToStr x ++ ")^2 + " ++ mvToStr b ++ "(" ++ mvToStr x ++ ") + " ++ mvToStr c ++ " = " ++ mvToStr chk ++ " \\approx 0"
                explanation := "Подставляем найденное значение переменной в исходное уравнение для проверки."
                detailedExplanation := some ("Для проверки правильности решения подставляем найденное значение переменной в исходное уравнение и проверяем, что левая часть равна правой.") }
            .ok { steps := steps ++ [step3, step4, step5, step6]
                  result := v ++ " = " ++ mvToStr x ++ " (двойной корень)"
                  type := "quadratic-equation", difficulty := .intermediate
                  visualization := some
                    { vtype := "function-graph", expression := expression, varName := v
                      xRange := (jsSub x (.fin 5), jsAdd x (.fin 5))
                      solutionPoints := some [x] } }
        else
          let step5 : SolutionStep :=
            { description := "Отсутствие действительных корней"
              formula := "D < 0"
              explanation := "Уравнение не имеет действительных корней, так как дискриминант отрицательный."
              detailedExplanation := some ("Если дискриминант квадратного уравнения отрицательный, то уравнение не имеет действительных корней, но имеет два комплексных сопряженных корня.") }
          let realPart := jsDiv (jsNeg b) (jsMul (.fin 2) a)
          let imagPart := jsDiv (mvSqrt (jsNeg d)) (jsMul (.fin 2) a)
          let step6 : SolutionStep :=
            { description := "Нахождение комплексных корней"
              formula := v ++ "_1 = \\frac\x7b-b\x7d\x7b2a\x7d + i\\frac\x7b\\sqrt\x7b-D\x7d\x7d\x7b2a\x7d = " ++ mvToStr realPart ++ " + " ++ mvToStr imagPart ++ "i\\\\\n" ++ v ++ "_2 = \\frac\x7b-b\x7d\x7b2a\x7d - i\\frac\x7b\\sqrt\x7b-D\x7d\x7d\x7b2a\x7d = " ++ mvToStr realPart ++ " - " ++ mvToStr imagPart ++ "i"
              explanation := "Находим комплексные корни уравнения."
              detailedExplanation := some ("Для квадратного уравнения с отрицательным дискриминантом существуют два комплексных сопряженных корня вида x = α ± βi, где α = -b/(2a) и β = √(-D)/(2a).") }
          .ok { steps := steps ++ [step3, step4, step5, step6]
                result := v ++ "_1 = " ++ mvToStr realPart ++ " + " ++ mvToStr imagPart ++ "i, " ++ v ++ "_2 = " ++ mvToStr realPart ++ " - " ++ mvToStr imagPart ++ "i"
                type := "quadratic-equation-complex", difficulty := .advanced
                visualization := some
                  { vtype := "function-graph", expression := expression, varName := v
                    xRange := (jsSub realPart (.fin 5), jsAdd realPart (.fin 5))
                    solutionPoints := none } }

/-- The `=`-separated, trimmed parts of the input (`input.split('=').map(trim)`). -/
def eqParts (input : String) : List String :=
  (splitEq input.data).map (fun p => String.mk (trimChars p))

/-- The left-hand side (`parts[0]`; a split always has a first part). -/
def leftPart (input : String) : String := (eqParts input).getD 0 ""

/-- The right-hand side: `parts[1]`.  When the input has no `=`, JavaScript
array destructuring yields `undefined`, which interpolates into the template
strings as the text `undefined`. -/
def rightPart (input : String) : String := (eqParts input).getD 1 "undefined"

/-- The standard-form string `(left) - (right)` handed to `math.simplify`. -/
def standardFormString (input : String) : String :=
  "(" ++ leftPart input ++ ") - (" ++ rightPart input ++ ")"

/-- The simplified standard form as `solve` computes it:
`math.simplify(standardForm).toString()`; `.error` models the throw on an
unparseable standard form. -/
def simplifiedStandardForm (input : String) : Except String String :=
  match parseE (standardFormString input) with
  | .error e => .error e
  | .ok sf => .ok (exprToString (simplifyE sf))

/-- The body of `AlgebraicSolver.solve` (the `try` block); `.error` models a
thrown exception reaching the outer `catch`. -/
def solveBody (input : String) : Except String Solution :=
  let left := leftPart input
  let right := rightPart input
  let step1 : SolutionStep :=
    { description := "Исходное уравнение"
      formula := left ++ " = " ++ right
      explanation := "Начинаем с исходного уравнения, которое нужно решить."
      detailedExplanation := some ("Уравнение - это математическое равенство, содержащее одну или несколько переменных. Решить уравнение означает найти значения переменных, при которых равенство становится верным.") }
  match parseE (standardFormString input) with
  | .error e => .error e
  | .ok sf =>
    let simplified := exprToString (simplifyE sf)
    let step2 : SolutionStep :=
      { description := "Приведение к стандартной форме"
        formula := simplified ++ " = 0"
        explanation := "Переносим все члены уравнения в левую часть, чтобы правая часть была равна нулю."
        detailedExplanation := some ("Стандартная форма уравнения вида \"выражение = 0\" упрощает дальнейшее решение. Для этого мы вычитаем правую часть из обеих частей уравнения.") }
    let steps := [step1, step2]
    match determineEquationType simplified with
    | .linear => solveLinearEquation simplified steps
    | .quadratic => solveQuadraticEquation simplified steps
    | .unknown =>
      .ok { steps := steps ++
              [{ description := "Определение типа уравнения"
                 formula := simplified
                 explanation := "Данное уравнение не относится к известным типам (линейное, квадратное)."
                 detailedExplanation := some ("Для решения этого уравнения требуются специальные методы или численные подходы.") }]
            result := "Не удалось определить метод решения"
            type := "unknown-equation", difficulty := .advanced
            visualization := none }

/-- The single-step `algebraic-error` solution built by `solve`'s outer catch
clause: the steps accumulated so far are discarded wholesale. -/
def errorSolution (input msg : String) : Solution :=
  { steps :=
      [{ description := "Ошибка решения"
         formula := input
         explanation := "Произошла ошибка при решении уравнения: " ++ msg
         detailedExplanation := none }]
    result := "Ошибка", type := "algebraic-error", difficulty := .basic
    visualization := none }

/-- `AlgebraicSolver.solve`: the outer catch clause replaces all accumulated
steps by a single error step and returns an `algebraic-error` solution. -/
def solve (input : String) : Solution :=
  match solveBody input with
  | .ok s => s
  | .error msg => errorSolution input msg

end AlgebraicSolver

end MathSteps

namespace MathSteps

/-- Does the string end with the given suffix (`type` ends in `-error`)? -/
def strEndsWith (s suffixString : String) : Bool :=
  suffixString.data.isSuffixOf s.data

/-- The non-error solution types the algebraic solver can return. -/
def algSuccessTypes : List String :=
  ["linear-equation", "quadratic-equation", "quadratic-equation-complex", "unknown-equation"]

/-- Specification-side count of operator nodes of a tree (claim C7's rule). -/
def opNodeCount : Expr → ℕ
| .num _ => 0
| .sym _ => 0
| .unop _ a => opNodeCount a + 1
| .binop _ l r => opNodeCount l + opNodeCount r + 1
| .fn _ a => opNodeCount a

/-- Specification-side: does the tree contain a function node? -/
def hasFunctionNode : Expr → Bool
| .num _ => false
| .sym _ => false
| .unop _ a => hasFunctionNode a
| .binop _ l r => hasFunctionNode l || hasFunctionNode r
| .fn _ _ => true

/-- Specification-side: does the tree contain a transcendental function
(`sin, cos, tan, log, exp`)? -/
def hasTranscendental : Expr → Bool
| .num _ => false
| .sym _ => false
| .unop _ a => hasTranscendental a
| .binop _ l r => hasTranscendental l || hasTranscendental r
| .fn g a => (g = "sin" || g = "cos" || g = "tan" || g = "log" || g = "exp") || hasTranscendental a

/-- The difficulty rule exactly as claim C7 states it: `advanced` when a
transcendental function is present or more than 3 operator nodes; else
`intermediate` when any function node is present or more than 1 operator
node; else `basic`. -/
def specDifficulty (e : Expr) : Difficulty :=
  if hasTranscendental e || decide (3 < opNodeCount e) then .advanced
  else if hasFunctionNode e || decide (1 < opNodeCount e) then .intermediate
  else .basic

/-- Claim C8's degree rule read literally: a traversal of the whole tree in
which a power node whose base is exactly the variable contributes its
evaluated exponent and any other occurrence of the variable contributes
degree 1 (`ninf` is the no-contribution identity of `Math.max`). -/
def claimDegreeAllNodes (v : String) : Expr → MVal
| .num _ => .ninf
| .sym s => if s = v then .fin 1 else .ninf
| .fn _ a => claimDegreeAllNodes v a
| .unop op a =>
  if op = "^" ∧ a = Expr.sym v then .ninf else claimDegreeAllNodes v a
| .binop op l r =>
  if op = "^" ∧ l = Expr.sym v then
    match evalStr (exprToString r) with
    | .ok .nonNum => .ninf
    | .ok w => w
    | .error _ => .ninf
  else mvMax (claimDegreeAllNodes v l) (claimDegreeAllNodes v r)

/-- Claim C8's classification built from `claimDegreeAllNodes` (the variable
itself is still located by the solver's search). -/
def claimEquationType (expression : String) : AlgebraicSolver.EqType :=
  match parseE expression with
  | .error _ => .unknown
  | .ok node =>
    match AlgebraicSolver.findVariables node with
    | [] => .unknown
    | v :: _ =>
      let d := mvMax (.fin 0) (claimDegreeAllNodes v node)
      if d = .fin 1 then .linear
      else if d = .fin 2 then .quadratic
      else .unknown

/-- The amended degree rule: as claim C8 states it, except that the traversal
never descends into function-call arguments, and a power node whose exponent
fails to evaluate to a number (or whose second argument is missing)
contributes nothing. -/
def specDegreeTraversal (v : String) : Expr → MVal
| .num _ => .ninf
| .sym s => if s = v then .fin 1 else .ninf
| .fn _ _ => .ninf
| .unop op a =>
  if op = "^" ∧ a = Expr.sym v then .ninf else specDegreeTraversal v a
| .binop op l r =>
  if op = "^" ∧ l = Expr.sym v then
    match evalStr (exprToString r) with
    | .ok .nonNum => .ninf
    | .ok w => w
    | .error _ => .ninf
  else mvMax (specDegreeTraversal v l) (specDegreeTraversal v r)

/-- The amended classification rule of claim C8. -/
def specEquationType (expression : String) : AlgebraicSolver.EqType :=
  match parseE expression with
  | .error _ => .unknown
  | .ok node =>
    match AlgebraicSolver.findVariables node with
    | [] => .unknown
    | v :: _ =>
      let d := mvMax (.fin 0) (specDegreeTraversal v node)
      if d = .fin 1 then .linear
      else if d = .fin 2 then .quadratic
      else .unknown

/-- Does the tree contain a symbol that is undefined at evaluation time (not
a member of the evaluator's constant table)? -/
def containsUndefSym : Expr → Bool
| .num _ => false
| .sym s => (constVal s).isNone
| .unop _ a => containsUndefSym a
| .binop _ l r => containsUndefSym l || containsUndefSym r
| .fn _ a => containsUndefSym a

/-- Does the symbol `v` occur anywhere in the tree? -/
def occursSym (v : String) : Expr → Bool
| .num _ => false
| .sym s => s = v
| .unop _ a => occursSym v a
| .binop _ l r => occursSym v l || occursSym v r
| .fn _ a => occursSym v a

end MathSteps

namespace MathSteps

theorem calc_body_ok {input : String} {s : Solution}
    (h : CalculationSolver.solveBody input = .ok s) :
    s.type = "calculation" ∧ s.steps ≠ [] := by
  unfold CalculationSolver.solveBody at h
  cases hp : parseE input with
  | error e => rw [hp] at h; exact absurd h (by simp)
  | ok node =>
    rw [hp] at h
    simp only at h
    cases he : evalStr input with
    | error e => rw [he] at h; exact absurd h (by simp)
    | ok result =>
      rw [he] at h
      simp only [Except.ok.injEq] at h
      subst h
      refine ⟨rfl, by simp⟩

theorem append_four {α : Type} (st : List α) (a b c d : α) :
    st ++ [a, b, c, d] = (st ++ [a, b, c]) ++ [d] := by simp

theorem solveLinear_shape {e : String} {st : List SolutionStep} {s : Solution}
    (h : AlgebraicSolver.solveLinearEquation e st = .ok s) :
    (∃ extra, extra ≠ [] ∧ s.steps = st ++ extra) ∧
    (s.type = "linear-equation" ∨
     (s.type = "linear-equation-error" ∧
      ∃ pre final, s.steps = pre ++ [final] ∧ final.description = "Ошибка решения")) := by
  unfold AlgebraicSolver.solveLinearEquation at h
  cases hp : parseE e with
  | error m => rw [hp] at h; exact absurd h (by simp)
  | ok node =>
    rw [hp] at h
    simp only at h
    cases hv : AlgebraicSolver.findVariables node with
    | nil =>
      rw [hv] at h
      simp only [Except.ok.injEq] at h
      subst h
      exact ⟨⟨_, by simp, rfl⟩, Or.inr ⟨rfl, st, _, rfl, rfl⟩⟩
    | cons v rest =>
      rw [hv] at h
      simp only at h
      cases hc : AlgebraicSolver.collectCoefficients e v with
      | error msg =>
        rw [hc] at h
        simp only [Except.ok.injEq] at h
        subst h
        exact ⟨⟨_, by simp, rfl⟩, Or.inr ⟨rfl, st, _, rfl, rfl⟩⟩
      | ok ab =>
        rw [hc] at h
        simp only at h
        cases hk : evalStr (mvToStr ab.1 ++ " * " ++ mvToStr (jsDiv (jsNeg ab.2) ab.1) ++ " + " ++ mvToStr ab.2) with
        | error msg =>
          rw [hk] at h
          simp only [Except.ok.injEq] at h
          subst h
          exact ⟨⟨_, by simp, rfl⟩, Or.inr ⟨rfl, _, _, append_four st _ _ _ _, rfl⟩⟩
        | ok checkLeft =>
          rw [hk] at h
          simp only [Except.ok.injEq] at h
          subst h
          exact ⟨⟨_, by simp, rfl⟩, Or.inl rfl⟩

end MathSteps

namespace MathSteps

theorem solveQuadratic_shape {e : String} {st : List SolutionStep} {s : Solution}
    (h : AlgebraicSolver.solveQuadraticEquation e st = .ok s) :
    (∃ extra, extra ≠ [] ∧ s.steps = st ++ extra) ∧
    (s.type = "quadratic-equation" ∨ s.type = "quadratic-equation-complex" ∨
     (s.type = "quadratic-equation-error" ∧
      ∃ pre final, s.steps = pre ++ [final] ∧ final.description = "Ошибка решения")) := by
  unfold AlgebraicSolver.solveQuadraticEquation at h
  cases hp : parseE e with
  | error m => rw [hp] at h; exact absurd h (by simp)
  | ok node =>
    rw [hp] at h
    simp only at h
    cases hv : AlgebraicSolver.findVariables node with
    | nil =>
      rw [hv] at h
      simp only [Except.ok.injEq] at h
      subst h
      exact ⟨⟨_, by simp, rfl⟩, Or.inr (Or.inr ⟨rfl, st, _, rfl, rfl⟩)⟩
    | cons v rest =>
      rw [hv] at h
      simp only at h
      cases hc : AlgebraicSolver.collectQuadraticCoefficients e v with
      | error msg =>
        rw [hc] at h
        simp only [Except.ok.injEq] at h
        subst h
        exact ⟨⟨_, by simp, rfl⟩, Or.inr (Or.inr ⟨rfl, st, _, rfl, rfl⟩)⟩
      | ok abc =>
        rw [hc] at h
        simp only at h
        by_cases hd : AlgebraicSolver.mvGtZero (jsSub (jsMul abc.2.1 abc.2.1) (jsMul (jsMul (MVal.fin 4) abc.1) abc.2.2)) = true
        · rw [if_pos hd] at h
          cases hk1 : evalStr (mvToStr abc.1 ++ " * " ++ mvToStr (jsDiv (jsAdd (jsNeg abc.2.1) (mvSqrt (jsSub (jsMul abc.2.1 abc.2.1) (jsMul (jsMul (MVal.fin 4) abc.1) abc.2.2)))) (jsMul (MVal.fin 2) abc.1)) ++ "^2 + " ++ mvToStr abc.2.1 ++ " * " ++ mvToStr (jsDiv (jsAdd (jsNeg abc.2.1) (mvSqrt (jsSub (jsMul abc.2.1 abc.2.1) (jsMul (jsMul (MVal.fin 4) abc.1) abc.2.2)))) (jsMul (MVal.fin 2) abc.1)) ++ " + " ++ mvToStr abc.2.2) with
          | error msg =>
            rw [hk1] at h
            simp only [Except.ok.injEq] at h
            subst h
            exact ⟨⟨_, by simp, rfl⟩, Or.inr (Or.inr ⟨rfl, _, _, append_four st _ _ _ _, rfl⟩)⟩
          | ok chk1 =>
            rw [hk1] at h
            simp only at h
            cases hk2 : evalStr (mvToStr abc.1 ++ " * " ++ mvToStr (jsDiv (jsSub (jsNeg abc.2.1) (mvSqrt (jsSub (jsMul abc.2.1 abc.2.1) (jsMul (jsMul (MVal.fin 4) abc.1) abc.2.2)))) (jsMul (MVal.fin 2) abc.1)) ++ "^2 + " ++ mvToStr abc.2.1 ++ " * " ++ mvToStr (jsDiv (jsSub (jsNeg abc.2.1) (mvSqrt (jsSub (jsMul abc.2.1 abc.2.1) (jsMul (jsMul (MVal.fin 4) abc.1) abc.2.2)))) (jsMul (MVal.fin 2) abc.1)) ++ " + " ++ mvToStr abc.2.2) with
            | error msg =>
              rw [hk2] at h
              simp only [Except.ok.injEq] at h
              subst h
              exact ⟨⟨_, by simp, rfl⟩, Or.inr (Or.inr ⟨rfl, _, _, append_four st _ _ _ _, rfl⟩)⟩
            | ok chk2 =>
              rw [hk2] at h
              simp only [Except.ok.injEq] at h
              subst h
              exact ⟨⟨_, by simp, rfl⟩, Or.inl rfl⟩
        · rw [if_neg hd] at h
          by_cases hz : jsSub (jsMul abc.2.1 abc.2.1) (jsMul (jsMul (MVal.fin 4) abc.1) abc.2.2) = MVal.fin 0
          · rw [if_pos hz] at h
            cases hk : evalStr (mvToStr abc.1 ++ " * " ++ mvToStr (jsDiv (jsNeg abc.2.1) (jsMul (MVal.fin 2) abc.1)) ++ "^2 + " ++ mvToStr abc.2.1 ++ " * " ++ mvToStr (jsDiv (jsNeg abc.2.1) (jsMul (MVal.fin 2) abc.1)) ++ " + " ++ mvToStr abc.2.2) with
            | error msg =>
              rw [hk] at h
              simp only [Except.ok.injEq] at h
              subst h
              exact ⟨⟨_, by simp, rfl⟩, Or.inr (Or.inr ⟨rfl, _, _, append_four st _ _ _ _, rfl⟩)⟩
            | ok chk =>
              rw [hk] at h
              simp only [Except.ok.injEq] at h
              subst h
              exact ⟨⟨_, by simp, rfl⟩, Or.inl rfl⟩
          · rw [if_neg hz] at h
            simp only [Except.ok.injEq] at h
            subst h
            exact ⟨⟨_, by simp, rfl⟩, Or.inr (Or.inl rfl)⟩

end MathSteps

namespace MathSteps

theorem alg_body_shape {input : String} {s : Solution}
    (h : AlgebraicSolver.solveBody input = .ok s) :
    s.steps ≠ [] ∧
    (s.type ∈ algSuccessTypes ∨ strEndsWith s.type ("-error") = true) ∧
    (strEndsWith s.type ("-error") = true →
      ∃ pre final, s.steps = pre ++ [final] ∧ final.description = "Ошибка решения") := by
  unfold AlgebraicSolver.solveBody at h
  cases hp : parseE (AlgebraicSolver.standardFormString input) with
  | error m => rw [hp] at h; exact absurd h (by simp)
  | ok sf =>
    rw [hp] at h
    simp only at h
    cases ht : AlgebraicSolver.determineEquationType (exprToString (simplifyE sf)) with
    | linear =>
      rw [ht] at h
      simp only at h
      obtain ⟨⟨extra, hne, hsteps⟩, htype⟩ := solveLinear_shape h
      refine ⟨by simp [hsteps, hne], ?_, ?_⟩
      · rcases htype with h1 | ⟨h1, _⟩
        · exact Or.inl (by simp [h1, algSuccessTypes])
        · exact Or.inr (by rw [h1]; decide)
      · intro hend
        rcases htype with h1 | ⟨h1, hex⟩
        · rw [h1] at hend; exact absurd hend (by decide)
        · exact hex
    | quadratic =>
      rw [ht] at h
      simp only at h
      obtain ⟨⟨extra, hne, hsteps⟩, htype⟩ := solveQuadratic_shape h
      refine ⟨by simp [hsteps, hne], ?_, ?_⟩
      · rcases htype with h1 | h1 | ⟨h1, _⟩
        · exact Or.inl (by simp [h1, algSuccessTypes])
        · exact Or.inl (by simp [h1, algSuccessTypes])
        · exact Or.inr (by rw [h1]; decide)
      · intro hend
        rcases htype with h1 | h1 | ⟨h1, hex⟩
        · rw [h1] at hend; exact absurd hend (by decide)
        · rw [h1] at hend; exact absurd hend (by decide)
        · exact hex
    | unknown =>
      rw [ht] at h
      simp only [Except.ok.injEq] at h
      subst h
      refine ⟨by simp, Or.inl (by simp [algSuccessTypes]), ?_⟩
      intro hend
      have hend2 : strEndsWith ("unknown-equation") ("-error") = true := hend
      exact absurd hend2 (by decide)

/-- Claim C1: for every input string, `solve` on the calculation solver and on
the algebraic solver is a total function returning a `Solution` (never an
exception): either the solver body succeeds, or the failure is captured and
returned as a `Solution` whose `type` ends in `-error` and which contains an
explanatory error step. -/
theorem solve_never_raises_error_capture (input : String) :
    ((∃ s, CalculationSolver.solveBody input = .ok s ∧ CalculationSolver.solve input = s ∧
        s.type = "calculation" ∧ s.steps ≠ []) ∨
     (∃ msg, CalculationSolver.solveBody input = .error msg ∧
        CalculationSolver.solve input = CalculationSolver.errorSolution input msg ∧
        strEndsWith (CalculationSolver.solve input).type ("-error") = true ∧
        (CalculationSolver.solve input).steps.length = 1)) ∧
    ((AlgebraicSolver.solve input).steps ≠ [] ∧
     ((AlgebraicSolver.solve input).type ∈ algSuccessTypes ∨
        strEndsWith (AlgebraicSolver.solve input).type ("-error") = true) ∧
     (strEndsWith (AlgebraicSolver.solve input).type ("-error") = true →
        ∃ pre final, (AlgebraicSolver.solve input).steps = pre ++ [final] ∧
          final.description = "Ошибка решения")) := by
  constructor
  · cases hb : CalculationSolver.solveBody input with
    | ok s =>
      have hs : CalculationSolver.solve input = s := by simp [CalculationSolver.solve, hb]
      exact Or.inl ⟨s, rfl, hs, (calc_body_ok hb).1, (calc_body_ok hb).2⟩
    | error msg =>
      have hs : CalculationSolver.solve input = CalculationSolver.errorSolution input msg := by
        simp [CalculationSolver.solve, hb]
      refine Or.inr ⟨msg, rfl, hs, ?_, ?_⟩
      · rw [hs]
        exact (by decide : strEndsWith ("calculation-error") ("-error") = true)
      · rw [hs]; rfl
  · cases hb : AlgebraicSolver.solveBody input with
    | ok s =>
      have hs : AlgebraicSolver.solve input = s := by
        simp [AlgebraicSolver.solve, hb]
      rw [hs]
      exact alg_body_shape hb
    | error msg =>
      have hs : AlgebraicSolver.solve input = AlgebraicSolver.errorSolution input msg := by
        simp [AlgebraicSolver.solve, hb]
      rw [hs]
      exact ⟨by simp [AlgebraicSolver.errorSolution],
        Or.inr (by exact (by decide : strEndsWith ("algebraic-error") ("-error") = true)),
        fun _ => ⟨[], _, rfl, rfl⟩⟩

/-- Witness for C1 at the concrete inputs `""` (both solvers fail and return
error-tagged single-step solutions) — obtained by applying the theorem. -/
theorem solve_never_raises_error_capture_witness :
    ((∃ s, CalculationSolver.solveBody ("") = .ok s ∧ CalculationSolver.solve ("") = s ∧
        s.type = "calculation" ∧ s.steps ≠ []) ∨
     (∃ msg, CalculationSolver.solveBody ("") = .error msg ∧
        CalculationSolver.solve ("") = CalculationSolver.errorSolution ("") msg ∧
        strEndsWith (CalculationSolver.solve ("")).type ("-error") = true ∧
        (CalculationSolver.solve ("")).steps.length = 1)) ∧
    ((AlgebraicSolver.solve ("")).steps ≠ [] ∧
     ((AlgebraicSolver.solve ("")).type ∈ algSuccessTypes ∨
        strEndsWith (AlgebraicSolver.solve ("")).type ("-error") = true) ∧
     (strEndsWith (AlgebraicSolver.solve ("")).type ("-error") = true →
        ∃ pre final, (AlgebraicSolver.solve ("")).steps = pre ++ [final] ∧
          final.description = "Ошибка решения")) :=
  solve_never_raises_error_capture ("")

/-- Claim C9: two calls to `solve` on the same solver with the same input
produce structurally identical Solutions — the same steps (count, content and
order), result string, type, difficulty and visualization data.  Each solver's
`solve` is a pure function of its input, so the two calls agree field by
field. -/
theorem solve_idempotent_deterministic (input : String) :
    (CalculationSolver.solve input).steps = (CalculationSolver.solve input).steps ∧
    (CalculationSolver.solve input).result = (CalculationSolver.solve input).result ∧
    (CalculationSolver.solve input).type = (CalculationSolver.solve input).type ∧
    (CalculationSolver.solve input).difficulty = (CalculationSolver.solve input).difficulty ∧
    (CalculationSolver.solve input).visualization = (CalculationSolver.solve input).visualization ∧
    (AlgebraicSolver.solve input).steps = (AlgebraicSolver.solve input).steps ∧
    (AlgebraicSolver.solve input).result = (AlgebraicSolver.solve input).result ∧
    (AlgebraicSolver.solve input).type = (AlgebraicSolver.solve input).type ∧
    (AlgebraicSolver.solve input).difficulty = (AlgebraicSolver.solve input).difficulty ∧
    (AlgebraicSolver.solve input).visualization = (AlgebraicSolver.solve input).visualization ∧
    CalculationSolver.solve input = CalculationSolver.solve input ∧
    AlgebraicSolver.solve input = AlgebraicSolver.solve input :=
  ⟨rfl, rfl, rfl, rfl, rfl, rfl, rfl, rfl, rfl, rfl, rfl, rfl⟩

/-- Witness for C9 at the concrete input `2x + 3 = 7`. -/
theorem solve_idempotent_deterministic_witness :
    (AlgebraicSolver.solve ("2x + 3 = 7")).result = (AlgebraicSolver.solve ("2x + 3 = 7")).result ∧
    AlgebraicSolver.solve ("2x + 3 = 7") = AlgebraicSolver.solve ("2x + 3 = 7") :=
  ⟨(solve_idempotent_deterministic ("2x + 3 = 7")).2.2.2.2.2.2.1,
   (solve_idempotent_deterministic ("2x + 3 = 7")).2.2.2.2.2.2.2.2.2.2.2⟩

end MathSteps

namespace MathSteps

theorem splitOnChar_length (sep : Char) (l : List Char) : ∀ acc : List Char,
    (splitOnChar sep l acc).length = l.count sep + 1 := by
  induction l with
  | nil => intro acc; simp [splitOnChar]
  | cons c cs ih =>
    intro acc
    by_cases hc : c = sep
    · rw [splitOnChar, if_pos hc, List.length_cons, ih []]
      simp [List.count_cons, hc]
    · rw [splitOnChar, if_neg hc, ih (c :: acc)]
      simp [List.count_cons, hc]

theorem mem_of_splitTwo {sep : Char} : ∀ {l acc x y : List Char},
    splitOnChar sep l acc = [x, y] → sep ∈ l := by
  intro l
  induction l with
  | nil => intro acc x y h; simp [splitOnChar] at h
  | cons c cs ih =>
    intro acc x y h
    by_cases hc : c = sep
    · exact hc ▸ List.mem_cons_self c cs
    · rw [splitOnChar, if_neg hc] at h
      exact List.mem_cons_of_mem c (ih h)

theorem contains_of_mem {l : List Char} {c : Char} (h : c ∈ l) : l.contains c = true :=
  List.elem_iff.mpr h

/-- Claim C3: an input without `=` that parses is claimed by the calculation
solver and rejected by the algebraic solver; an input with exactly one `=`
(equivalently, whose `=`-split has exactly two parts — third conjunct) whose
two sides both parse is claimed by the algebraic solver and rejected by the
calculation solver. -/
theorem canSolve_mutual_exclusion :
    (∀ (s : String) (e : Expr), s.data.contains '=' = false → parseE s = .ok e →
      CalculationSolver.canSolve s = true ∧ AlgebraicSolver.canSolve s = false) ∧
    (∀ (s : String) (l r : List Char) (el er : Expr), splitEq s.data = [l, r] →
      parseChars l = .ok el → parseChars r = .ok er →
      AlgebraicSolver.canSolve s = true ∧ CalculationSolver.canSolve s = false) ∧
    (∀ s : String, (splitEq s.data).length = s.data.count '=' + 1) := by
  refine ⟨?_, ?_, ?_⟩
  · intro s e hc hp
    constructor
    · unfold CalculationSolver.canSolve CalculationSolver.isValidExpression
      rw [hc, hp]
      simp
    · unfold AlgebraicSolver.canSolve
      rw [hc]
      simp
  · intro s l r el er hsplit hl hr
    have hmem : '=' ∈ s.data := mem_of_splitTwo hsplit
    have hcont : s.data.contains '=' = true := contains_of_mem hmem
    constructor
    · simp only [AlgebraicSolver.canSolve, hcont, Bool.true_and,
        AlgebraicSolver.isValidEquation, hsplit, hl, hr]
    · unfold CalculationSolver.canSolve
      rw [hcont]
      rfl
  · intro s
    exact splitOnChar_length '=' s.data []

/-- Witness for C3 at the concrete inputs `1+1` (pure expression) and
`x = 1` (equation). -/
theorem canSolve_mutual_exclusion_witness :
    (CalculationSolver.canSolve ("1+1") = true ∧ AlgebraicSolver.canSolve ("1+1") = false) ∧
    (AlgebraicSolver.canSolve ("x = 1") = true ∧ CalculationSolver.canSolve ("x = 1") = false) :=
  ⟨canSolve_mutual_exclusion.1 ("1+1") (Expr.binop ("+") (Expr.num 1) (Expr.num 1))
      (by decide) (by decide),
   canSolve_mutual_exclusion.2.1 ("x = 1") (['x', ' ']) ([' ', '1'])
      (Expr.sym ("x")) (Expr.num 1) (by decide) (by decide) (by decide)⟩

end MathSteps

namespace MathSteps

theorem diffGo_spec (e : Expr) : ∀ (c : ℕ) (f adv : Bool),
    CalculationSolver.diffGo e (c, f, adv) =
      (c + opNodeCount e, f || hasFunctionNode e, adv || hasTranscendental e) := by
  induction e with
  | num q =>
    intro c f adv
    simp [CalculationSolver.diffGo, opNodeCount, hasFunctionNode, hasTranscendental]
  | sym s =>
    intro c f adv
    simp [CalculationSolver.diffGo, opNodeCount, hasFunctionNode, hasTranscendental]
  | unop op a ih =>
    intro c f adv
    simp only [CalculationSolver.diffGo, opNodeCount, hasFunctionNode, hasTranscendental, ih]
    refine Prod.ext ?_ rfl
    simp
    omega
  | binop op l r ihl ihr =>
    intro c f adv
    simp only [CalculationSolver.diffGo, opNodeCount, hasFunctionNode, hasTranscendental, ihl, ihr]
    refine Prod.ext ?_ (Prod.ext ?_ ?_)
    · simp; omega
    · simp [Bool.or_assoc]
    · simp [Bool.or_assoc]
  | fn g a ih =>
    intro c f adv
    simp only [CalculationSolver.diffGo, opNodeCount, hasFunctionNode, hasTranscendental, ih]
    refine Prod.ext rfl (Prod.ext ?_ ?_)
    · simp
    · simp [Bool.or_assoc]

/-- Claim C7: the difficulty of every successfully solved expression is
exactly the stated rule — `advanced` when a transcendental function
(`sin, cos, tan, log, exp`) is present or the tree has more than 3 operator
nodes, else `intermediate` when any function node is present or more than 1
operator node, else `basic`.  First conjunct: the solver's classifier equals
the rule on every tree; second conjunct: every successful `solve` takes its
difficulty from that classifier applied to the parsed input. -/
theorem difficulty_rule :
    (∀ e : Expr, CalculationSolver.determineDifficulty e = specDifficulty e) ∧
    (∀ (input : String) (s : Solution), CalculationSolver.solveBody input = .ok s →
      ∃ e, parseE input = .ok e ∧ s.difficulty = CalculationSolver.determineDifficulty e) := by
  constructor
  · intro e
    unfold CalculationSolver.determineDifficulty specDifficulty
    rw [diffGo_spec e 0 false false]
    simp
  · intro input s h
    unfold CalculationSolver.solveBody at h
    cases hp : parseE input with
    | error m => rw [hp] at h; exact absurd h (by simp)
    | ok node =>
      rw [hp] at h
      simp only at h
      cases he : evalStr input with
      | error m => rw [he] at h; exact absurd h (by simp)
      | ok result =>
        rw [he] at h
        simp only [Except.ok.injEq] at h
        subst h
        exact ⟨node, rfl, rfl⟩

/-- Witness for C7: the rule at a literal tree, and the hypothesis of the
second conjunct discharged at the concrete input `2+2*3`. -/
theorem difficulty_rule_witness :
    CalculationSolver.determineDifficulty (Expr.num 1) = specDifficulty (Expr.num 1) ∧
    (∃ e, parseE ("2+2*3") = .ok e ∧
      (CalculationSolver.solve ("2+2*3")).difficulty = CalculationSolver.determineDifficulty e) ∧
    (CalculationSolver.solve ("2+2*3")).difficulty = Difficulty.intermediate :=
  ⟨difficulty_rule.1 (Expr.num 1),
   difficulty_rule.2 ("2+2*3") (CalculationSolver.solve ("2+2*3")) rfl,
   by decide⟩

end MathSteps

namespace MathSteps

/-- Counterexample to claim C4: on `2x + 3 = 7` the simplified standard form
is `2*x+3-7`, and the coefficient extraction the claim describes
(`a = value(1) − value(0)`, `b = value(0)`) yields `b = −4`, not the claimed
`b = 3` (the `+ 3` moves to the left side as `3 − 7 = −4`). -/
theorem linear_coefficients_counterexample :
    AlgebraicSolver.simplifiedStandardForm ("2x + 3 = 7") = .ok ("2*x+3-7") ∧
    AlgebraicSolver.collectCoefficients ("2*x+3-7") ("x") = .ok (MVal.fin 2, MVal.fin (-4)) ∧
    MVal.fin (-4) ≠ MVal.fin 3 := by
  refine ⟨by decide, by decide, by decide⟩

/-- Claim C4 as amended: `solve("2x + 3 = 7")` is classified linear, the
coefficient extraction on the simplified standard form yields `a = 2` and
`b = −4`, the result string is `"x = 2"`, and the verification step's
substituted value is exactly `0` (the final step's formula reads
`2 \cdot 2 + -4 = 0 \approx 0`). -/
theorem linear_example_solution :
    AlgebraicSolver.determineEquationType ("2*x+3-7") = .linear ∧
    AlgebraicSolver.collectCoefficients ("2*x+3-7") ("x") = .ok (MVal.fin 2, MVal.fin (-4)) ∧
    (AlgebraicSolver.solve ("2x + 3 = 7")).type = "linear-equation" ∧
    (AlgebraicSolver.solve ("2x + 3 = 7")).result = "x = 2" ∧
    ((AlgebraicSolver.solve ("2x + 3 = 7")).steps.map SolutionStep.formula).getLast? =
      some ("2 \\cdot 2 + -4 = 0 \\approx 0") ∧
    evalStr ("2 * 2 + -4") = .ok (MVal.fin 0) := by
  refine ⟨by decide, by decide, by decide, by decide, by decide, by decide⟩

/-- Claim C5, evaluated on the code at the failing input `x^2 - 5x + 6 = 0`:
the equation is classified quadratic, but the textual substitution
`x^2 → 1, x → 0` evaluates to `a + c = 7` (the code never subtracts the
constant term from it), so the extraction returns `a = 7, b = −5, c = 6`,
the discriminant `b² − 4ac = −143` is negative, and `solve` returns a
`quadratic-equation-complex` Solution of difficulty `advanced` instead of the
claimed real roots `{3, 2}`. -/
theorem quadratic_example_code_divergence :
    AlgebraicSolver.simplifiedStandardForm ("x^2 - 5x + 6 = 0") = .ok ("x^2-5*x+6") ∧
    AlgebraicSolver.determineEquationType ("x^2-5*x+6") = .quadratic ∧
    AlgebraicSolver.collectQuadraticCoefficients ("x^2-5*x+6") ("x") =
      .ok (MVal.fin 7, MVal.fin (-5), MVal.fin 6) ∧
    jsSub (jsMul (MVal.fin (-5)) (MVal.fin (-5)))
        (jsMul (jsMul (MVal.fin 4) (MVal.fin 7)) (MVal.fin 6)) = MVal.fin (-143) ∧
    (AlgebraicSolver.solve ("x^2 - 5x + 6 = 0")).type = "quadratic-equation-complex" ∧
    (AlgebraicSolver.solve ("x^2 - 5x + 6 = 0")).difficulty = .advanced := by
  refine ⟨by decide, by decide, by decide, by decide, by decide, by decide⟩

end MathSteps

namespace MathSteps

/-- Counterexample to claim C2: `solve("x*y = 2")` is routed to the linear
branch (first variable `x`, degree 1), where the coefficient substitution
`x → 1` produces `1*y-2`, whose evaluation throws on the undefined symbol
`y`; the branch's catch clause then returns a `linear-equation-error`
Solution with THREE steps — the two partial steps built before the failure
are retained, with the error step appended, not a single explanatory step. -/
theorem branch_error_retains_steps_counterexample :
    (AlgebraicSolver.solve ("x*y = 2")).type = "linear-equation-error" ∧
    (AlgebraicSolver.solve ("x*y = 2")).steps.length = 3 ∧
    ¬ (AlgebraicSolver.solve ("x*y = 2")).steps.length = 1 ∧
    ((AlgebraicSolver.solve ("x*y = 2")).steps.map SolutionStep.description) =
      ["Исходное уравнение", "Приведение к стандартной форме", "Ошибка решения"] := by
  refine ⟨by decide, by decide, by decide, by decide⟩

/-- Claim C2 as amended: an exception reaching the OUTER catch of the
algebraic solver's `solve` discards the steps built so far and returns the
single-step `algebraic-error` Solution; but an exception inside the linear or
quadratic branch instead APPENDS that branch's error step to the steps built
so far (branch results are always `steps ++ extra`), so partial steps are
retained there — as on `x*y = 2`, which returns three steps under
`linear-equation-error`. -/
theorem error_step_handling :
    (∀ (input msg : String), AlgebraicSolver.solveBody input = .error msg →
      AlgebraicSolver.solve input = AlgebraicSolver.errorSolution input msg) ∧
    (∀ (input msg : String), (AlgebraicSolver.errorSolution input msg).steps.length = 1) ∧
    (∀ (e : String) (st : List SolutionStep) (s : Solution),
      AlgebraicSolver.solveLinearEquation e st = .ok s →
      ∃ extra, extra ≠ [] ∧ s.steps = st ++ extra) ∧
    (∀ (e : String) (st : List SolutionStep) (s : Solution),
      AlgebraicSolver.solveQuadraticEquation e st = .ok s →
      ∃ extra, extra ≠ [] ∧ s.steps = st ++ extra) ∧
    (AlgebraicSolver.solve ("x*y = 2")).type = "linear-equation-error" ∧
    (AlgebraicSolver.solve ("x*y = 2")).steps.length = 3 := by
  refine ⟨?_, ?_, ?_, ?_, by decide, by decide⟩
  · intro input msg h
    simp [AlgebraicSolver.solve, h]
  · intro input msg
    rfl
  · intro e st s h
    exact (solveLinear_shape h).1
  · intro e st s h
    exact (solveQuadratic_shape h).1

/-- Witness for C2 as amended: the outer-catch conjunct discharged at the
concrete input `(`, whose standard form fails to parse, and the linear-branch
conjunct discharged at the concrete simplified form `2*x+3-7`. -/
theorem error_step_handling_witness :
    AlgebraicSolver.solve ("(") = AlgebraicSolver.errorSolution ("(") ("unexpected token") ∧
    (∃ extra, extra ≠ [] ∧
      (AlgebraicSolver.solve ("2x + 3 = 7")).steps =
        (AlgebraicSolver.solve ("2x + 3 = 7")).steps.take 2 ++ extra) :=
  ⟨error_step_handling.1 ("(") ("unexpected token") (by decide),
   error_step_handling.2.2.1 ("2*x+3-7")
     ((AlgebraicSolver.solve ("2x + 3 = 7")).steps.take 2)
     (AlgebraicSolver.solve ("2x + 3 = 7")) (by decide)⟩

end MathSteps

namespace MathSteps

theorem findVarsGo_mem {v : String} : ∀ (e : Expr) (acc : List String),
    v ∈ CalculationSolver.findVarsGo e acc → v ∈ acc ∨ occursSym v e = true := by
  intro e
  induction e with
  | num q => intro acc h; exact Or.inl h
  | sym s =>
    intro acc h
    unfold CalculationSolver.findVarsGo at h
    by_cases hc : s = "e" ∨ s = "pi" ∨ s = "i"
    · rw [if_pos hc] at h; exact Or.inl h
    · rw [if_neg hc] at h
      by_cases hm : s ∈ acc
      · rw [if_pos hm] at h; exact Or.inl h
      · rw [if_neg hm] at h
        rcases List.mem_append.mp h with h1 | h1
        · exact Or.inl h1
        · simp only [List.mem_singleton] at h1
          subst h1
          exact Or.inr (by simp [occursSym])
  | unop op a ih =>
    intro acc h
    rcases ih acc h with h1 | h1
    · exact Or.inl h1
    · exact Or.inr (by simpa [occursSym] using h1)
  | binop op l r ihl ihr =>
    intro acc h
    rcases ihr (CalculationSolver.findVarsGo l acc) h with h1 | h1
    · rcases ihl acc h1 with h2 | h2
      · exact Or.inl h2
      · exact Or.inr (by simp [occursSym, h2])
    · exact Or.inr (by simp [occursSym, h1])
  | fn g a ih =>
    intro acc h
    rcases ih acc h with h1 | h1
    · exact Or.inl h1
    · exact Or.inr (by simpa [occursSym] using h1)

theorem occursSym_undef {v : String} (hv : constVal v = none) : ∀ e : Expr,
    occursSym v e = true → containsUndefSym e = true := by
  intro e
  induction e with
  | num q => intro h; exact absurd h (by simp [occursSym])
  | sym s =>
    intro h
    simp only [occursSym, decide_eq_true_eq] at h
    subst h
    simp [containsUndefSym, hv]
  | unop op a ih => intro h; exact (by simpa [containsUndefSym] using ih (by simpa [occursSym] using h))
  | binop op l r ihl ihr =>
    intro h
    simp only [occursSym, Bool.or_eq_true] at h
    simp only [containsUndefSym, Bool.or_eq_true]
    rcases h with h | h
    · exact Or.inl (ihl h)
    · exact Or.inr (ihr h)
  | fn g a ih => intro h; exact (by simpa [containsUndefSym] using ih (by simpa [occursSym] using h))

theorem evalScope_error_of_undef : ∀ e : Expr, containsUndefSym e = true →
    ∃ m, evalScope [] e = .error m := by
  intro e
  induction e with
  | num q => intro h; exact absurd h (by simp [containsUndefSym])
  | sym s =>
    intro h
    simp only [containsUndefSym, Option.isNone_iff_eq_none] at h
    refine ⟨"Undefined symbol " ++ s, ?_⟩
    simp [evalScope, List.find?, h]
  | unop op a ih =>
    intro h
    obtain ⟨m, hm⟩ := ih (by simpa [containsUndefSym] using h)
    exact ⟨m, by simp [evalScope, hm]⟩
  | binop op l r ihl ihr =>
    intro h
    simp only [containsUndefSym, Bool.or_eq_true] at h
    rcases h with h | h
    · obtain ⟨m, hm⟩ := ihl h
      exact ⟨m, by simp [evalScope, hm]⟩
    · obtain ⟨m, hm⟩ := ihr h
      cases hl : evalScope [] l with
      | error m' => exact ⟨m', by simp [evalScope, hl]⟩
      | ok vl => exact ⟨m, by simp [evalScope, hl, hm]⟩
  | fn g a ih =>
    intro h
    obtain ⟨m, hm⟩ := ih (by simpa [containsUndefSym] using h)
    exact ⟨m, by simp [evalScope, hm]⟩

theorem undef_of_findVariables {e : Expr}
    (hne : CalculationSolver.findVariables e ≠ [])
    (hall : ∀ v ∈ CalculationSolver.findVariables e, constVal v = none) :
    containsUndefSym e = true := by
  obtain ⟨v, hv⟩ : ∃ v, v ∈ CalculationSolver.findVariables e := by
    cases hmem : CalculationSolver.findVariables e with
    | nil => exact absurd hmem hne
    | cons a as => exact ⟨a, hmem ▸ List.mem_cons_self a as⟩
  rcases findVarsGo_mem e [] hv with h1 | h1
  · cases h1
  · exact occursSym_undef (hall v hv) e h1

end MathSteps

namespace MathSteps

/-- Counterexample to claim C6: `x+1` is a non-equation expression with
exactly one free variable whose five samples all evaluate to finite values
(the eligibility helper returns true), yet `solve("x+1")` attaches no
visualization hint — it returns a `calculation-error` Solution, because the
whole-expression evaluation step runs with an empty scope and throws on the
undefined symbol `x` before eligibility is ever tested. -/
theorem visualization_hint_counterexample :
    parseE ("x+1") = .ok (Expr.binop ("+") (Expr.sym ("x")) (Expr.num 1)) ∧
    CalculationSolver.findVariables (Expr.binop ("+") (Expr.sym ("x")) (Expr.num 1)) = ["x"] ∧
    CalculationSolver.isVisualizableExpression ("x+1") ("x") = true ∧
    (CalculationSolver.solve ("x+1")).type = "calculation-error" ∧
    (CalculationSolver.solve ("x+1")).visualization = none := by
  refine ⟨by decide, by decide, by decide, by decide, by decide⟩

/-- Claim C6 as amended: for every non-equation expression with at least one
free variable (none of which is an evaluator constant), `solve` returns the
`calculation-error` Solution with no visualization hint, because the
whole-expression evaluation runs with an empty scope and fails on the free
variable before eligibility is tested (first conjunct).  The eligibility
helper itself returns true exactly when the expression parses and every one
of the five samples `−5, −1, 0, 1, 5` evaluates to a finite number (second
conjunct); in particular it rejects `1/x`, whose sample at `x = 0` evaluates
to `Infinity` (third conjunct), and `solve("1/x")` indeed carries no hint. -/
theorem visualization_eligibility :
    (∀ (input : String) (e : Expr), parseE input = .ok e →
      CalculationSolver.findVariables e ≠ [] →
      (∀ v ∈ CalculationSolver.findVariables e, constVal v = none) →
      ∃ msg, CalculationSolver.solveBody input = .error msg ∧
        CalculationSolver.solve input = CalculationSolver.errorSolution input msg ∧
        (CalculationSolver.solve input).visualization = none ∧
        (CalculationSolver.solve input).type = "calculation-error") ∧
    (∀ (expression varName : String),
      CalculationSolver.isVisualizableExpression expression varName = true ↔
      ∃ e, parseE expression = .ok e ∧
        ∀ q ∈ CalculationSolver.testValues, ∃ r : Q,
          evalScope [(varName, q)] e = .ok (MVal.fin r)) ∧
    (evalScope [(("x"), (0 : Q))] (Expr.binop ("/") (Expr.num 1) (Expr.sym ("x"))) =
        .ok MVal.inf ∧
      CalculationSolver.isVisualizableExpression ("1/x") ("x") = false ∧
      (CalculationSolver.solve ("1/x")).type = "calculation-error" ∧
      (CalculationSolver.solve ("1/x")).visualization = none) := by
  refine ⟨?_, ?_, by decide, by decide, by decide, by decide⟩
  · intro input e hp hne hall
    obtain ⟨m, hm⟩ := evalScope_error_of_undef e (undef_of_findVariables hne hall)
    have hes : evalStr input = .error m := by
      unfold evalStr
      rw [hp]
      exact hm
    have hbody : CalculationSolver.solveBody input = .error m := by
      unfold CalculationSolver.solveBody
      rw [hp]
      simp only
      rw [hes]
    have hs : CalculationSolver.solve input = CalculationSolver.errorSolution input m := by
      simp [CalculationSolver.solve, hbody]
    exact ⟨m, hbody, hs, by rw [hs]; rfl, by rw [hs]; rfl⟩
  · intro expr v
    unfold CalculationSolver.isVisualizableExpression
    cases hp : parseE expr with
    | error m => simp
    | ok e =>
      simp only [List.all_eq_true]
      constructor
      · intro hall
        refine ⟨e, rfl, ?_⟩
        intro q hq
        have hq2 := hall q hq
        revert hq2
        cases he : evalScope [(v, q)] e with
        | error m => simp
        | ok r =>
          cases r with
          | fin q' => intro _; exact ⟨q', rfl⟩
          | inf => simp [MVal.isFiniteNum]
          | ninf => simp [MVal.isFiniteNum]
          | nan => simp [MVal.isFiniteNum]
          | nonNum => simp [MVal.isFiniteNum]
      · rintro ⟨e', he', hforall⟩ q hq
        injection he' with he'
        subst he'
        obtain ⟨r, hr⟩ := hforall q hq
        rw [hr]
        rfl

/-- Witness for C6 as amended: the error-path conjunct discharged at the
concrete input `x+1`. -/
theorem visualization_eligibility_witness :
    ∃ msg, CalculationSolver.solveBody ("x+1") = .error msg ∧
      CalculationSolver.solve ("x+1") = CalculationSolver.errorSolution ("x+1") msg ∧
      (CalculationSolver.solve ("x+1")).visualization = none ∧
      (CalculationSolver.solve ("x+1")).type = "calculation-error" :=
  visualization_eligibility.1 ("x+1") (Expr.binop ("+") (Expr.sym ("x")) (Expr.num 1))
    (by decide) (by decide) (by decide)

end MathSteps

namespace MathSteps

theorem qMax_assoc (a b c : Q) : qMax (qMax a b) c = qMax a (qMax b c) := by
  have ha : (0 : ℤ) < (a.d : ℤ) := by exact_mod_cast a.pos
  have hb : (0 : ℤ) < (b.d : ℤ) := by exact_mod_cast b.pos
  have hc : (0 : ℤ) < (c.d : ℤ) := by exact_mod_cast c.pos
  unfold qMax
  split_ifs <;>
    first
    | rfl
    | (exfalso
       simp only [qLtB, decide_eq_true_eq, decide_eq_false_iff_not, Int.not_lt] at *
       nlinarith)

theorem mvMax_assoc (a b c : MVal) : mvMax (mvMax a b) c = mvMax a (mvMax b c) := by
  cases a <;> cases b <;> cases c <;> simp [mvMax, qMax_assoc]

theorem mvMax_ne_nonNum (a b : MVal) : mvMax a b ≠ .nonNum := by
  cases a <;> cases b <;> simp [mvMax]

theorem mvMax_ninf {a : MVal} (h : a ≠ .nonNum) : mvMax a .ninf = a := by
  cases a
  case nonNum => exact absurd rfl h
  all_goals simp [mvMax]

end MathSteps

namespace MathSteps

theorem fhdGo_spec (v : String) : ∀ (e : Expr) (acc : MVal), acc ≠ .nonNum →
    AlgebraicSolver.fhdGo v e (.fin 1) acc = mvMax acc (specDegreeTraversal v e) := by
  intro e
  induction e with
  | num q =>
    intro acc hacc
    simp [AlgebraicSolver.fhdGo, specDegreeTraversal, mvMax_ninf hacc]
  | sym s =>
    intro acc hacc
    by_cases hs : s = v
    · simp [AlgebraicSolver.fhdGo, specDegreeTraversal, hs]
    · simp [AlgebraicSolver.fhdGo, specDegreeTraversal, hs, mvMax_ninf hacc]
  | fn g a ih =>
    intro acc hacc
    simp [AlgebraicSolver.fhdGo, specDegreeTraversal, mvMax_ninf hacc]
  | unop op a ih =>
    intro acc hacc
    by_cases hpw : op = "^" ∧ a = Expr.sym v
    · simp only [AlgebraicSolver.fhdGo, specDegreeTraversal, if_pos hpw]
      exact (mvMax_ninf hacc).symm
    · simp only [AlgebraicSolver.fhdGo, specDegreeTraversal, if_neg hpw]
      exact ih acc hacc
  | binop op l r ihl ihr =>
    intro acc hacc
    by_cases hpw : op = "^" ∧ l = Expr.sym v
    · simp only [AlgebraicSolver.fhdGo, specDegreeTraversal, if_pos hpw]
      cases he : evalStr (exprToString r) with
      | error m => exact (mvMax_ninf hacc).symm
      | ok w =>
        cases w with
        | nonNum => exact (mvMax_ninf hacc).symm
        | fin q => rfl
        | inf => rfl
        | ninf => rfl
        | nan => rfl
    · simp only [AlgebraicSolver.fhdGo, specDegreeTraversal, if_neg hpw]
      rw [ihl acc hacc, ihr (mvMax acc (specDegreeTraversal v l)) (mvMax_ne_nonNum _ _)]
      exact mvMax_assoc acc (specDegreeTraversal v l) (specDegreeTraversal v r)

theorem findHighestDegree_spec (e : Expr) (v : String) :
    AlgebraicSolver.findHighestDegree e v = mvMax (.fin 0) (specDegreeTraversal v e) :=
  fhdGo_spec v e (.fin 0) (by simp)

/-- Counterexample to claim C8: on the simplified form `x+sin(x^3)` the
claim's degree rule, read as stated (every power node with base `x`
contributes its evaluated exponent), yields degree 3 and hence type
`unknown`, but the code's traversal never descends into function-call
arguments, sees only the outer occurrence of `x` (degree 1), and classifies
the equation `linear`. -/
theorem degree_rule_counterexample :
    mvMax (.fin 0) (claimDegreeAllNodes ("x")
        (Expr.binop ("+") (Expr.sym ("x"))
          (Expr.fn ("sin") (Expr.binop ("^") (Expr.sym ("x")) (Expr.num 3))))) = .fin 3 ∧
    claimEquationType ("x+sin(x^3)") = .unknown ∧
    AlgebraicSolver.determineEquationType ("x+sin(x^3)") = .linear ∧
    claimEquationType ("x+sin(x^3)") ≠ AlgebraicSolver.determineEquationType ("x+sin(x^3)") := by
  refine ⟨by decide, by decide, by decide, by decide⟩

/-- Claim C8 as amended: the classification of the simplified standard form
is `unknown` when no free variable is found; otherwise, for the first
variable found, the highest degree is computed by a traversal that descends
operator nodes but never function-call arguments, in which a power node whose
base is exactly that variable contributes its evaluated exponent when that
evaluation yields a number (and nothing on failure or on a non-number), and
any other occurrence of the variable visible to the traversal contributes
degree 1; degree 1 yields `linear`, degree 2 `quadratic`, anything else
`unknown`. -/
theorem equation_type_rule (s : String) :
    AlgebraicSolver.determineEquationType s = specEquationType s := by
  unfold AlgebraicSolver.determineEquationType specEquationType
  cases hp : parseE s with
  | error m => rfl
  | ok node =>
    simp only
    cases hv : AlgebraicSolver.findVariables node with
    | nil => rfl
    | cons v rest =>
      simp only
      rw [findHighestDegree_spec node v]

/-- Witness for C8 as amended, at the concrete simplified form `2*x+3-7`. -/
theorem equation_type_rule_witness :
    AlgebraicSolver.determineEquationType ("2*x+3-7") = specEquationType ("2*x+3-7") ∧
    AlgebraicSolver.determineEquationType ("2*x+3-7") = .linear :=
  ⟨equation_type_rule ("2*x+3-7"), by decide⟩

end MathSteps

namespace MathSteps

/-- Claim C10: the algebraic solver's variable search never descends into
function-call nodes (first conjunct: a function-call tree contributes no
variables at all), so an equation whose variable occurs only inside function
arguments is classified `unknown` and `solve` returns the unknown-equation
Solution — type `unknown-equation`, difficulty `advanced` — instead of
attempting to solve (second conjunct, for every input whose simplified
standard form classifies as unknown).  Concretely (third conjunct),
`sin(x) = 0` simplifies to `sin(x)`, in which the search finds no variable
even though `x` occurs inside the argument (the calculation solver's
deeper search does find it), and `solve` returns the three-step
unknown-equation Solution. -/
theorem unknown_equation_routing :
    (∀ (fname : String) (arg : Expr), AlgebraicSolver.findVariables (Expr.fn fname arg) = []) ∧
    (∀ (input : String) (sf : Expr),
      parseE (AlgebraicSolver.standardFormString input) = .ok sf →
      AlgebraicSolver.determineEquationType (exprToString (simplifyE sf)) = .unknown →
      (AlgebraicSolver.solve input).type = "unknown-equation" ∧
      (AlgebraicSolver.solve input).difficulty = .advanced ∧
      (AlgebraicSolver.solve input).result = "Не удалось определить метод решения" ∧
      (AlgebraicSolver.solve input).steps.length = 3) ∧
    (AlgebraicSolver.simplifiedStandardForm ("sin(x) = 0") = .ok ("sin(x)") ∧
      AlgebraicSolver.findVariables (Expr.fn ("sin") (Expr.sym ("x"))) = [] ∧
      CalculationSolver.findVariables (Expr.fn ("sin") (Expr.sym ("x"))) = ["x"] ∧
      (AlgebraicSolver.solve ("sin(x) = 0")).type = "unknown-equation" ∧
      (AlgebraicSolver.solve ("sin(x) = 0")).difficulty = .advanced ∧
      (AlgebraicSolver.solve ("sin(x) = 0")).steps.length = 3) := by
  refine ⟨?_, ?_, by decide, by decide, by decide, by decide, by decide, by decide⟩
  · intro fname arg
    rfl
  · intro input sf hp ht
    unfold AlgebraicSolver.solve AlgebraicSolver.solveBody
    rw [hp]
    simp only
    rw [ht]
    exact ⟨rfl, rfl, rfl, rfl⟩

/-- Witness for C10: the unknown-routing conjunct discharged at the concrete
input `sin(x) = 0`. -/
theorem unknown_equation_routing_witness :
    (AlgebraicSolver.solve ("sin(x) = 0")).type = "unknown-equation" ∧
    (AlgebraicSolver.solve ("sin(x) = 0")).difficulty = .advanced ∧
    (AlgebraicSolver.solve ("sin(x) = 0")).result = "Не удалось определить метод решения" ∧
    (AlgebraicSolver.solve ("sin(x) = 0")).steps.length = 3 :=
  unknown_equation_routing.2.1 ("sin(x) = 0")
    (Expr.binop ("-") (Expr.fn ("sin") (Expr.sym ("x"))) (Expr.num 0))
    (by decide) (by decide)

end MathSteps
